import Mathlib

/-!
# node-shop: the shop and auth controllers

A shallow embedding of `src/controllers/shop.js` and `src/controllers/auth.js`.

* A handler is a function from the request data and the state of its
  collaborators to the list of observable actions it performs, in order
  (rendering, redirecting, forwarding an error with `next`, writing to the PDF
  document, calling the payment provider, saving documents).
* A promise chain is modelled by `Except JsError`: `.then` runs on `ok`, the
  trailing `.catch` receives the first `error` (a rejection or a thrown
  exception).
* Counts and quantities are naturals and page numbers are integers.  Prices and
  the results of `+` and `*` on them are IEEE 754 doubles (`JsNumber`): a finite
  double is the rational it denotes, and each operation rounds the exact result
  to the nearest double, ties to even.  The two zeros are not distinguished.
-/

namespace NodeShop

/-! ## Values -/

/-- A JavaScript error object: `name`, `message` and the optional
`httpStatusCode` property the controllers attach. -/
structure JsError where
  name : String
  message : String
  httpStatusCode : Option Nat
deriving DecidableEq, Repr

/-- The string form of an error, `Error.prototype.toString`. -/
def JsError.toString (e : JsError) : String :=
  if e.name = "" then e.message
  else if e.message = "" then e.name
  else e.name ++ ": " ++ e.message

/-- The value `new Error(msg)`. -/
def newError (msg : String) : JsError :=
  { name := "Error", message := msg, httpStatusCode := none }

/-- The body of the `.catch` of most handlers:
`const error = new Error(err); error.httpStatusCode = 500`. -/
def wrap500 (err : JsError) : JsError :=
  { newError err.toString with httpStatusCode := some 500 }

/-- The `TypeError` thrown by reading property `prop` of `null`. -/
def nullPropertyError (prop : String) : JsError :=
  { name := "TypeError"
    message := "Cannot read properties of null (reading '" ++ prop ++ "')"
    httpStatusCode := none }

/-! ## Numbers -/

/-- A JavaScript number: a finite double, given by the rational it denotes, an
infinity, or `NaN`. A value `finite q` is a double when `q` is a fixed point of
rounding, `roundDouble q = finite q`. -/
inductive JsNumber where
  | finite (value : ℚ)
  | posInf
  | negInf
  | nan
deriving DecidableEq, Repr

/-- The floor of the binary logarithm of `n`, by halving; `fuel` bounds the number
of halvings. -/
def log2Floor : Nat → Nat → Nat
  | 0, _ => 0
  | fuel + 1, n => if n < 2 then 0 else log2Floor fuel (n / 2) + 1

/-- The ceiling of the binary logarithm of `n`, by halving; `fuel` bounds the
number of halvings. -/
def log2Ceil : Nat → Nat → Nat
  | 0, _ => 0
  | fuel + 1, n => if n < 2 then 0 else log2Ceil fuel ((n + 1) / 2) + 1

/-- The binary exponent of a positive rational `q`: the integer `e` with
`2 ^ e ≤ q < 2 ^ (e + 1)`. -/
def binaryExponent (q : ℚ) : Int :=
  if 1 ≤ q then (log2Floor (Nat.floor q) (Nat.floor q) : Int)
  else -(log2Ceil (Nat.ceil q⁻¹) (Nat.ceil q⁻¹) : Int)

/-- Rounding to the nearest integer, a tie going to the even neighbour. -/
def roundHalfEven (x : ℚ) : Int :=
  if x - (Int.floor x : ℚ) < 1 / 2 then Int.floor x
  else if 1 / 2 < x - (Int.floor x : ℚ) then Int.floor x + 1
  else if Int.floor x % 2 = 0 then Int.floor x
  else Int.floor x + 1

/-- The exponent of the spacing of the doubles around `q`: 52 below the binary
exponent of `q` (a significand of 53 bits), and never below -1074, the spacing of
the subnormal doubles. -/
def ulpExponent (q : ℚ) : Int := max (binaryExponent |q| - 52) (-1074)

/-- The double nearest to the rational `q`, ties to even; a result of magnitude
`2 ^ 1024` or more is an infinity. -/
def roundDouble (q : ℚ) : JsNumber :=
  if q = 0 then .finite 0
  else
    let r : ℚ := (roundHalfEven (q / (2 : ℚ) ^ ulpExponent q) : ℚ) * (2 : ℚ) ^ ulpExponent q
    if (2 : ℚ) ^ (1024 : Nat) ≤ |r| then (if 0 < q then .posInf else .negInf)
    else .finite r

/-- The operator `+` on numbers. -/
def JsNumber.add : JsNumber → JsNumber → JsNumber
  | .nan, _ => .nan
  | _, .nan => .nan
  | .posInf, .negInf => .nan
  | .negInf, .posInf => .nan
  | .posInf, _ => .posInf
  | _, .posInf => .posInf
  | .negInf, _ => .negInf
  | _, .negInf => .negInf
  | .finite a, .finite b => roundDouble (a + b)

/-- The operator `*` on numbers. -/
def JsNumber.mul : JsNumber → JsNumber → JsNumber
  | .nan, _ => .nan
  | _, .nan => .nan
  | .finite a, .finite b => roundDouble (a * b)
  | .finite a, .posInf => if a = 0 then .nan else if 0 < a then .posInf else .negInf
  | .finite a, .negInf => if a = 0 then .nan else if 0 < a then .negInf else .posInf
  | .posInf, .finite b => if b = 0 then .nan else if 0 < b then .posInf else .negInf
  | .negInf, .finite b => if b = 0 then .nan else if 0 < b then .negInf else .posInf
  | .posInf, .posInf => .posInf
  | .posInf, .negInf => .negInf
  | .negInf, .posInf => .negInf
  | .negInf, .negInf => .posInf

/-- The number a stored quantity `n` is: the double nearest to `n`. -/
def JsNumber.ofNat (n : Nat) : JsNumber := roundDouble n

/-- The rational a finite number denotes; 0 for the infinities and `NaN`. -/
def JsNumber.toRat : JsNumber → ℚ
  | .finite q => q
  | _ => 0

/-- The value a loop `total += x` accumulates from 0 over `xs`, in order. -/
def jsSum (xs : List JsNumber) : JsNumber := xs.foldl JsNumber.add (.finite 0)

/-- A document identifier; `hex` is its string form. -/
structure ObjectId where
  hex : String
deriving DecidableEq, Repr

/-- The method `ObjectId.prototype.toString`. -/
def ObjectId.toString (i : ObjectId) : String := i.hex

/-- A product document (the `_doc` of a `Product`). -/
structure Product where
  _id : ObjectId
  title : String
  price : JsNumber
  description : String
  imageUrl : String
deriving DecidableEq, Repr

/-- The numeric value of `+req.query.page`: `nan` when the parameter is missing
or not numeric, otherwise the integer it denotes. Fractional and infinite
values are outside the model. -/
inductive JsNum where
  | nan
  | num (v : Int)
deriving DecidableEq, Repr

/-- The expression `+req.query.page || 1`: `NaN` and `0` are falsy. -/
def pageOf (q : JsNum) : Int :=
  match q with
  | .nan => 1
  | .num v => if v = 0 then 1 else v

/-! ## The product collection -/

/-- The product collection: its documents in their stable order, and the error
with which the count query or the slice query rejects, if it does. -/
structure ProductCollection where
  docs : List Product
  countFault : Option JsError
  findFault : Option JsError
deriving Repr

/-- The query `Product.find().countDocuments()`. -/
def ProductCollection.countDocuments (db : ProductCollection) : Except JsError Nat :=
  match db.countFault with
  | some e => .error e
  | none => .ok db.docs.length

/-- The query `Product.find().skip(n).limit(m)`: skip is drop, limit is take; the
database rejects a negative skip. -/
def ProductCollection.findSkipLimit (db : ProductCollection) (n : Int) (m : Nat) :
    Except JsError (List Product) :=
  match db.findFault with
  | some e => .error e
  | none =>
    if n < 0 then .error { name := "MongoError", message := "Skip value must be non-negative", httpStatusCode := none }
    else .ok ((db.docs.drop n.toNat).take m)

/-- The query `Product.findById(id)`: the first document with that id, or `null`. -/
def ProductCollection.findById (db : ProductCollection) (id : ObjectId) :
    Except JsError (Option Product) :=
  match db.findFault with
  | some e => .error e
  | none => .ok (db.docs.find? (fun p => p._id = id))

/-! ## Rendered views -/

/-- The locals of the views `shop/product-list` and `shop/index`. -/
structure ProductListLocals where
  prods : List Product
  pageTitle : String
  path : String
  currentPage : Int
  hasNextPage : Bool
  hasPreviousPage : Bool
  nextPage : Int
  previousPage : Int
  lastPage : Int
deriving DecidableEq, Repr

/-- The locals of the view `shop/product-detail`. -/
structure ProductDetailLocals where
  product : Product
  path : String
  pageTitle : String
  isAuthenticated : Option Bool
deriving DecidableEq, Repr

/-! ## Users, carts and orders -/

/-- An entry of `user.cart.items`: a product reference and a quantity. -/
structure CartItem where
  productId : ObjectId
  qty : Nat
deriving DecidableEq, Repr

/-- The embedded cart of a user. -/
structure Cart where
  items : List CartItem
deriving DecidableEq, Repr

/-- A user document. -/
structure User where
  _id : ObjectId
  name : String
  email : String
  password : String
  cart : Cart
deriving DecidableEq, Repr

/-- A cart entry after `populate('cart.items.productId')`: the reference is
replaced by the product document, or by `null` when no product has that id. -/
structure PopulatedItem where
  productId : Option Product
  qty : Nat
deriving DecidableEq, Repr

/-- The cart entry, as populated, of a product that resolved, with its quantity. -/
def resolved (c : Product × Nat) : PopulatedItem :=
  { productId := some c.1, qty := c.2 }

/-- The call `req.user.populate('cart.items.productId')`. -/
def populate (db : ProductCollection) (u : User) : Except JsError (List PopulatedItem) :=
  match db.findFault with
  | some e => .error e
  | none =>
    .ok (u.cart.items.map fun item =>
      { productId := db.docs.find? (fun p => p._id = item.productId), qty := item.qty })

/-- The `user` part of an order. -/
structure OrderUser where
  name : String
  email : String
  userId : ObjectId
deriving DecidableEq, Repr

/-- An entry of `order.products`. -/
structure OrderEntry where
  qty : Nat
  product : Product
deriving DecidableEq, Repr

/-- An order document. -/
structure Order where
  _id : ObjectId
  user : OrderUser
  products : List OrderEntry
deriving DecidableEq, Repr

/-- The order collection, with the errors with which a save or a lookup rejects,
if it does. -/
structure OrderCollection where
  docs : List Order
  saveFault : Option JsError
  findFault : Option JsError
deriving Repr

/-- The call `order.save()`. -/
def OrderCollection.save (db : OrderCollection) (o : Order) : Except JsError OrderCollection :=
  match db.saveFault with
  | some e => .error e
  | none => .ok { db with docs := db.docs ++ [o] }

/-- The query `Order.findById(orderId)` for the request parameter `orderId`. -/
def OrderCollection.findById (db : OrderCollection) (orderId : String) :
    Except JsError (Option Order) :=
  match db.findFault with
  | some e => .error e
  | none => .ok (db.docs.find? (fun o => o._id.toString = orderId))

/-- The persistent state a request of a logged-in user runs against: the two
collections, the requester's user document `req.user`, and the error with which
saving that document rejects, if it does. -/
structure World where
  products : ProductCollection
  orders : OrderCollection
  user : User
  userSaveFault : Option JsError
deriving Repr

/-- Modelled from the spec: `clearCart` of `models/user.js`, which is not among
the sources. It resets the item list to empty and persists; when persisting
fails the stored cart is unchanged. -/
def clearCart (w : World) : Except JsError World :=
  match w.userSaveFault with
  | some e => .error e
  | none => .ok { w with user := { w.user with cart := { items := [] } } }

/-! ## The payment provider -/

/-- The `product_data` of a line item. -/
structure ProductData where
  name : String
  description : Option String
deriving DecidableEq, Repr

/-- The `price_data` of a line item. -/
structure PriceData where
  currency : String
  unit_amount : JsNumber
  product_data : ProductData
deriving DecidableEq, Repr

/-- A line item of a checkout session request. -/
structure LineItem where
  price_data : PriceData
  quantity : Nat
deriving DecidableEq, Repr

/-- The argument of `stripe.checkout.sessions.create`. -/
structure SessionRequest where
  payment_method_types : List String
  line_items : List LineItem
  mode : String
  success_url : String
  cancel_url : String
deriving DecidableEq, Repr

/-- The locals of the view `shop/checkout`. -/
structure CheckoutLocals where
  path : String
  pageTitle : String
  products : List PopulatedItem
  totalSum : JsNumber
  sessionId : String
deriving DecidableEq, Repr

/-! ## The invoice document -/

/-- A piece of a text built by `+`: a string, or a number converted to a string. -/
inductive Frag where
  | str (s : String)
  | num (v : JsNumber)
deriving DecidableEq, Repr

/-- The options object of `pdfDoc.text`. -/
structure TextOptions where
  underline : Bool
  align : Option String
  width : Option Nat
deriving DecidableEq, Repr

/-- The options of a `text` call without an options argument. -/
def noOptions : TextOptions := { underline := false, align := none, width := none }

/-- The two sinks of `pdfDoc.pipe`. -/
inductive Sink where
  | file (path : String)
  | response
deriving DecidableEq, Repr

/-! ## Login -/

/-- An entry of `validationErrors`. -/
structure ValidationError where
  param : String
  msg : Option String
deriving DecidableEq, Repr

/-- The object `oldInput` of the login form. -/
structure OldInput where
  email : String
  password : String
deriving DecidableEq, Repr

/-- The locals of the view `auth/login`. -/
structure LoginLocals where
  path : String
  pageTitle : String
  errorMessage : Option String
  oldInput : OldInput
  validationErrors : List ValidationError
deriving DecidableEq, Repr

/-- The fields of `req.session` the controllers use. -/
structure Session where
  user : Option User
  isLoggedIn : Option Bool
deriving DecidableEq, Repr

/-- The user collection and the error with which a lookup rejects, if it does. -/
structure UserCollection where
  docs : List User
  findFault : Option JsError
deriving Repr

/-- The query `User.findOne` by `email`: the first user with that address, or
`null`. -/
def UserCollection.findOne (db : UserCollection) (email : String) :
    Except JsError (Option User) :=
  match db.findFault with
  | some e => .error e
  | none => .ok (db.docs.find? (fun u => u.email = email))

/-! ## Observable actions -/

/-- What a handler does that is visible outside it, one constructor per call. -/
inductive Action where
  | renderProducts (view : String) (locals : ProductListLocals)
  | renderProductDetail (locals : ProductDetailLocals)
  | renderCheckout (locals : CheckoutLocals)
  | renderLogin (status : Nat) (locals : LoginLocals)
  | redirect (path : String)
  | next (err : JsError)
  | unhandledRejection (err : JsError)
  | saveOrder (order : Order)
  | clearCart
  | createSession (request : SessionRequest)
  | setHeader (name value : String)
  | createWriteStream (path : String)
  | pipe (sink : Sink)
  | text (fontSize : Nat) (content : List Frag) (options : TextOptions)
  | moveDown
  | pdfEnd
  | sessionSave
deriving DecidableEq, Repr

/-- The trailing `.catch` of the shop handlers: a resolved chain has performed its
actions, a rejected one forwards the wrapped error. -/
def catch500 (chain : Except JsError (List Action)) : List Action :=
  match chain with
  | .ok actions => actions
  | .error err => [.next (wrap500 err)]

/-! ## `controllers/shop.js` -/

def ITEMS_PER_PAGE : Nat := 3

/-- The handler `getProducts`. -/
def getProducts (query : JsNum) (db : ProductCollection) : List Action :=
  let page := pageOf query
  catch500 do
    let numProducts ← db.countDocuments
    let totalItems := numProducts
    let products ← db.findSkipLimit ((page - 1) * ITEMS_PER_PAGE) ITEMS_PER_PAGE
    pure [.renderProducts "shop/product-list"
      { prods := products
        pageTitle := "All Products"
        path := "/products"
        currentPage := page
        hasNextPage := decide ((ITEMS_PER_PAGE : Int) * page < totalItems)
        hasPreviousPage := decide (page > 1)
        nextPage := page + 1
        previousPage := page - 1
        lastPage := Int.ceil ((totalItems : ℚ) / (ITEMS_PER_PAGE : ℚ)) }]

/-- The handler `getProduct`. Evaluating the argument `product.title` throws
when `product` is `null`, before `res.render` is called. -/
def getProduct (productId : ObjectId) (session : Session) (db : ProductCollection) :
    List Action :=
  catch500 do
    let product ← db.findById productId
    match product with
    | none => throw (nullPropertyError "title")
    | some p =>
      pure [.renderProductDetail
        { product := p
          path := "/products"
          pageTitle := p.title
          isAuthenticated := session.isLoggedIn }]

/-- The handler `getIndex`. -/
def getIndex (query : JsNum) (db : ProductCollection) : List Action :=
  let page := pageOf query
  catch500 do
    let numProducts ← db.countDocuments
    let totalItems := numProducts
    let products ← db.findSkipLimit ((page - 1) * ITEMS_PER_PAGE) ITEMS_PER_PAGE
    pure [.renderProducts "shop/index"
      { prods := products
        pageTitle := "Shop"
        path := "/"
        currentPage := page
        hasNextPage := decide ((ITEMS_PER_PAGE : Int) * page < totalItems)
        hasPreviousPage := decide (page > 1)
        nextPage := page + 1
        previousPage := page - 1
        lastPage := Int.ceil ((totalItems : ℚ) / (ITEMS_PER_PAGE : ℚ)) }]

/-- The callback of `user.cart.items.map` in `postOrder`:
the entry with `qty: item.qty` and `product` a spread copy of
`item.productId._doc`. Reading `_doc` of `null` throws. -/
def orderEntry (item : PopulatedItem) : Except JsError OrderEntry :=
  match item.productId with
  | none => .error (nullPropertyError "_doc")
  | some doc =>
    .ok { qty := item.qty
          product :=
            { _id := doc._id
              title := doc.title
              price := doc.price
              description := doc.description
              imageUrl := doc.imageUrl } }

/-- The call `user.cart.items.map(...)` with the callback `orderEntry`: the
first throwing entry aborts the map. -/
def orderEntries : List PopulatedItem → Except JsError (List OrderEntry)
  | [] => .ok []
  | item :: rest =>
    match orderEntry item with
    | .error e => .error e
    | .ok entry =>
      match orderEntries rest with
      | .error e => .error e
      | .ok entries => .ok (entry :: entries)

/-- The handler `postOrder`. `newId` is the identifier `new Order` generates.
The result is the list of actions and the persistent state afterwards. -/
def postOrder (newId : ObjectId) (w : World) : List Action × World :=
  match populate w.products w.user with
  | .error err => ([.next (wrap500 err)], w)
  | .ok items =>
    match orderEntries items with
    | .error err => ([.next (wrap500 err)], w)
    | .ok products =>
      let order : Order :=
        { _id := newId
          user := { name := w.user.name, email := w.user.email, userId := w.user._id }
          products := products }
      match w.orders.save order with
      | .error err => ([.saveOrder order, .next (wrap500 err)], w)
      | .ok orders =>
        let w1 : World := { w with orders := orders }
        match clearCart w1 with
        | .error err => ([.saveOrder order, .clearCart, .next (wrap500 err)], w1)
        | .ok w2 => ([.saveOrder order, .clearCart, .redirect "/orders"], w2)

/-- The body of `order.products.forEach` in `getInvoice`, on the running total
and the actions so far. -/
def invoiceStep (acc : JsNumber × List Action) (p : OrderEntry) : JsNumber × List Action :=
  (acc.1.add ((JsNumber.ofNat p.qty).mul p.product.price),
   acc.2 ++
    [.text 14
        [.str p.product.title, .str " - ", .num (.ofNat p.qty), .str " x $",
         .num p.product.price]
        noOptions,
     .moveDown])

/-- The handler `getInvoice`, for the request parameter `orderId` and the
requester `req.user`. -/
def getInvoice (orderId : String) (user : User) (db : OrderCollection) : List Action :=
  match db.findById orderId with
  | .error err => [.next err]
  | .ok order? =>
    match order? with
    | none => [.next (newError "No order found.")]
    | some order =>
      if order.user.userId.toString ≠ user._id.toString then
        [.next (newError "Unauthorized.")]
      else
        let invoiceName := orderId ++ ".pdf"
        let invoicePath := "data/invoices/" ++ invoiceName
        let head : List Action :=
          [.setHeader "Content-Type" "application/pdf",
           .setHeader "Content-Disposition" ("filename=\"" ++ invoiceName ++ "\""),
           .createWriteStream invoicePath,
           .pipe (.file invoicePath),
           .pipe .response,
           .text 26 [.str "Invoice"] { underline := true, align := none, width := none },
           .moveDown]
        let (totalPrice, lines) := order.products.foldl invoiceStep (.finite 0, head)
        lines ++
          [.text 20 [.str "Total Price: $", .num totalPrice]
              { underline := false, align := some "right", width := none },
           .moveDown,
           .text 10 [.str "Payment is due within 15 days. Thank you for your business."]
              { underline := false, align := some "center", width := some 500 },
           .pdfEnd]

/-- The loop `products.forEach(p => total += p.productId.price * p.qty)` of
`getCheckout`. Reading `price` of `null` throws. -/
def checkoutTotal : JsNumber → List PopulatedItem → Except JsError JsNumber
  | total, [] => .ok total
  | total, p :: rest =>
    match p.productId with
    | none => .error (nullPropertyError "price")
    | some product => checkoutTotal (total.add (product.price.mul (.ofNat p.qty))) rest

/-- The callback of `products.map` in `getCheckout`: the line item of one cart
entry. -/
def lineItem (p : PopulatedItem) : Except JsError LineItem :=
  match p.productId with
  | none => .error (nullPropertyError "price")
  | some product =>
    .ok { price_data :=
            { currency := "usd"
              unit_amount := product.price.mul (.finite 100)
              product_data :=
                { name := product.title
                  description :=
                    if product.description = "" then none else some product.description } }
          quantity := p.qty }

/-- The call `products.map(...)` with the callback `lineItem`. -/
def lineItems : List PopulatedItem → Except JsError (List LineItem)
  | [] => .ok []
  | p :: rest =>
    match lineItem p with
    | .error e => .error e
    | .ok item =>
      match lineItems rest with
      | .error e => .error e
      | .ok items => .ok (item :: items)

/-- The handler `getCheckout`. `protocol` and `host` are `req.protocol` and
`req.get('host')`; `stripe` is the payment provider's answer to a session
request: the session id, or a rejection. -/
def getCheckout (protocol host : String) (stripe : SessionRequest → Except JsError String)
    (w : World) : List Action :=
  match populate w.products w.user with
  | .error err => [.next (wrap500 err)]
  | .ok products =>
    match checkoutTotal (.finite 0) products with
    | .error err => [.next (wrap500 err)]
    | .ok total =>
      match lineItems products with
      | .error err => [.next (wrap500 err)]
      | .ok line_items =>
        let request : SessionRequest :=
          { payment_method_types := ["card"]
            line_items := line_items
            mode := "payment"
            success_url := protocol ++ "://" ++ host ++ "/checkout/success"
            cancel_url := protocol ++ "://" ++ host ++ "/checkout/cancel" }
        match stripe request with
        | .error err => [.createSession request, .next (wrap500 err)]
        | .ok sessionId =>
          [.createSession request,
           .renderCheckout
            { path := "/checkout"
              pageTitle := "Checkout"
              products := products
              totalSum := total
              sessionId := sessionId }]

/-- The handler `getCheckoutSuccess`. -/
def getCheckoutSuccess (newId : ObjectId) (w : World) : List Action × World :=
  match populate w.products w.user with
  | .error err => ([.next (wrap500 err)], w)
  | .ok items =>
    match orderEntries items with
    | .error err => ([.next (wrap500 err)], w)
    | .ok products =>
      let order : Order :=
        { _id := newId
          user := { name := w.user.name, email := w.user.email, userId := w.user._id }
          products := products }
      match w.orders.save order with
      | .error err => ([.saveOrder order, .next (wrap500 err)], w)
      | .ok orders =>
        let w1 : World := { w with orders := orders }
        match clearCart w1 with
        | .error err => ([.saveOrder order, .clearCart, .next (wrap500 err)], w1)
        | .ok w2 => ([.saveOrder order, .clearCart, .redirect "/orders"], w2)

/-! ## `controllers/auth.js` -/

/-- The handler `postLogin`. `errors` is `validationResult(req).array()`,
`compare` is `bcrypt.compare`. The promise of `bcrypt.compare` is not returned
to the outer chain, so its rejection reaches no handler. The result is the list
of actions and `req.session` afterwards. -/
def postLogin (email password : String) (errors : List ValidationError)
    (users : UserCollection) (compare : String → String → Except JsError Bool)
    (session : Session) : List Action × Session :=
  match errors with
  | first :: _ =>
    ([.renderLogin 422
        { path := "/login"
          pageTitle := "Login"
          errorMessage := first.msg
          oldInput := { email := email, password := password }
          validationErrors := errors }], session)
  | [] =>
    match users.findOne email with
    | .error err => ([.next (wrap500 err)], session)
    | .ok none =>
      ([.renderLogin 422
          { path := "/login"
            pageTitle := "Login"
            errorMessage := some "E-mail not found."
            oldInput := { email := email, password := password }
            validationErrors := [{ param := "email", msg := none }] }], session)
    | .ok (some user) =>
      match compare password user.password with
      | .error err => ([.unhandledRejection err], session)
      | .ok doMatch =>
        if doMatch then
          ([.sessionSave, .redirect "/"], { user := some user, isLoggedIn := some true })
        else
          ([.renderLogin 422
              { path := "/login"
                pageTitle := "Login"
                errorMessage := some "Password is incorrect."
                oldInput := { email := email, password := password }
                validationErrors := [{ param := "password", msg := none }] }], session)

/-! ## Sample data -/

/-- A sample product with the given id, title and price. -/
def sampleProduct (id title : String) (price : ℚ) : Product :=
  { _id := { hex := id }, title := title, price := .finite price, description := "",
    imageUrl := "" }

/-- A catalog of seven products, all queries succeeding. -/
def catalog7 : ProductCollection :=
  { docs :=
      [sampleProduct "p1" "P1" 1, sampleProduct "p2" "P2" 2, sampleProduct "p3" "P3" 3,
       sampleProduct "p4" "P4" 4, sampleProduct "p5" "P5" 5, sampleProduct "p6" "P6" 6,
       sampleProduct "p7" "P7" 7]
    countFault := none
    findFault := none }

/-- Product A, at price 10. -/
def productA : Product := sampleProduct "a" "A" 10

/-- Product B, at price 5. -/
def productB : Product := sampleProduct "b" "B" 5

/-- A user whose cart holds two of product A and one of product B. -/
def sampleUser : User :=
  { _id := { hex := "u1" }
    name := "Ann"
    email := "ann@example.com"
    password := "hash-of-secret"
    cart := { items := [{ productId := { hex := "a" }, qty := 2 },
                        { productId := { hex := "b" }, qty := 1 }] } }

/-- The state in which `sampleUser` shops: products A and B, no order yet, no
failing collaborator. -/
def cartWorld : World :=
  { products := { docs := [productA, productB], countFault := none, findFault := none }
    orders := { docs := [], saveFault := none, findFault := none }
    user := sampleUser
    userSaveFault := none }

/-- The order `postOrder` builds for `sampleUser` in `cartWorld` under the id
`o1`. -/
def sampleOrder : Order :=
  { _id := { hex := "o1" }
    user := { name := "Ann", email := "ann@example.com", userId := { hex := "u1" } }
    products := [{ qty := 2, product := productA }, { qty := 1, product := productB }] }

/-- Product C, at price 0.125, a price with three decimal places that a double
holds exactly. -/
def productC : Product := sampleProduct "c" "C" (1 / 8)

/-- The state in which a user shops whose cart holds one of product C. -/
def eighthWorld : World :=
  { products := { docs := [productC], countFault := none, findFault := none }
    orders := { docs := [], saveFault := none, findFault := none }
    user := { sampleUser with cart := { items := [{ productId := { hex := "c" }, qty := 1 }] } }
    userSaveFault := none }

/-- The double nearest to 0.1. -/
def tenth : ℚ := 3602879701896397 / 36028797018963968

/-- Product T, at price 0.1. -/
def productT : Product := sampleProduct "t" "T" tenth

/-- The state in which a user shops whose cart holds three of product T. -/
def tenthWorld : World :=
  { products := { docs := [productT], countFault := none, findFault := none }
    orders := { docs := [], saveFault := none, findFault := none }
    user := { sampleUser with cart := { items := [{ productId := { hex := "t" }, qty := 3 }] } }
    userSaveFault := none }

/-- The order of `sampleUser` for three of product T, under the id `o3`. -/
def tenthOrder : Order :=
  { _id := { hex := "o3" }
    user := { name := "Ann", email := "ann@example.com", userId := { hex := "u1" } }
    products := [{ qty := 3, product := productT }] }

/-- The order collection holding `tenthOrder`, lookups succeeding. -/
def tenthOrders : OrderCollection :=
  { docs := [tenthOrder], saveFault := none, findFault := none }

/-- The double nearest to 19.99. -/
def nineteen99 : ℚ := 5626684784446013 / 281474976710656

/-- Product D, at price 19.99. -/
def productD : Product := sampleProduct "d" "D" nineteen99

/-- The state in which a user shops whose cart holds one of product D. -/
def centsWorld : World :=
  { products := { docs := [productD], countFault := none, findFault := none }
    orders := { docs := [], saveFault := none, findFault := none }
    user := { sampleUser with cart := { items := [{ productId := { hex := "d" }, qty := 1 }] } }
    userSaveFault := none }

/-- A payment provider that accepts every request, with session id `cs_1`. -/
def stripeAccepts (_ : SessionRequest) : Except JsError String := .ok "cs_1"

/-- Another user, with an empty cart. -/
def otherUser : User :=
  { _id := { hex := "u2" }
    name := "Bob"
    email := "bob@example.com"
    password := "hash-of-hunter2"
    cart := { items := [] } }

/-- The order collection holding `sampleOrder`, lookups succeeding. -/
def sampleOrders : OrderCollection :=
  { docs := [sampleOrder], saveFault := none, findFault := none }

/-- The error with which a failing write of the user document rejects. -/
def writeError : JsError :=
  { name := "MongoNetworkError", message := "connection closed", httpStatusCode := none }

/-- The state `cartWorld`, except that saving the user document fails. -/
def stuckCartWorld : World := { cartWorld with userSaveFault := some writeError }

/-- A session in which nobody is logged in. -/
def anonymousSession : Session := { user := none, isLoggedIn := none }

/-- The user collection holding `sampleUser`, lookups succeeding. -/
def sampleUsers : UserCollection := { docs := [sampleUser], findFault := none }

/-- A password comparison that succeeds and accepts `secret` for the hash
`hash-of-secret`. -/
def sampleCompare (password hash : String) : Except JsError Bool :=
  .ok (decide (hash = "hash-of-" ++ password))

/-! ## Observations on action lists -/

/-- The products of a product-list page: `prods` when the handler did nothing
but render one, the empty list otherwise. -/
def renderedProds (actions : List Action) : List Product :=
  match actions with
  | [.renderProducts _ locals] => locals.prods
  | _ => []

/-- Whether an action is part of the invoice output: a response header, the
file under `data/invoices`, or a write to the PDF document. -/
def isInvoiceOutput (a : Action) : Bool :=
  match a with
  | .setHeader _ _ => true
  | .createWriteStream _ => true
  | .pipe _ => true
  | .text _ _ _ => true
  | .moveDown => true
  | .pdfEnd => true
  | _ => false

/-- The line of the invoice for one entry of `order.products`, with the
`moveDown` that follows it. -/
def invoiceLine (p : OrderEntry) : List Action :=
  [.text 14
      [.str p.product.title, .str " - ", .num (.ofNat p.qty), .str " x $",
       .num p.product.price]
      noOptions,
   .moveDown]

/-- The actions of `getInvoice` before the product lines, for an order id. -/
def invoiceHead (orderId : String) : List Action :=
  [.setHeader "Content-Type" "application/pdf",
   .setHeader "Content-Disposition" ("filename=\"" ++ (orderId ++ ".pdf") ++ "\""),
   .createWriteStream ("data/invoices/" ++ (orderId ++ ".pdf")),
   .pipe (.file ("data/invoices/" ++ (orderId ++ ".pdf"))),
   .pipe .response,
   .text 26 [.str "Invoice"] { underline := true, align := none, width := none },
   .moveDown]

/-- The actions of `getInvoice` after the product lines, for a printed total. -/
def invoiceFoot (total : JsNumber) : List Action :=
  [.text 20 [.str "Total Price: $", .num total]
      { underline := false, align := some "right", width := none },
   .moveDown,
   .text 10 [.str "Payment is due within 15 days. Thank you for your business."]
      { underline := false, align := some "center", width := some 500 },
   .pdfEnd]

/-- The number printed on each `Total Price` line, in order: the texts of size 20
made of a string and a number. -/
def printedTotals (actions : List Action) : List JsNumber :=
  actions.filterMap fun a =>
    match a with
    | .text 20 [.str _, .num total] _ => some total
    | _ => none

/-- The session requests sent to the payment provider, in order. -/
def sessionRequests (actions : List Action) : List SessionRequest :=
  actions.filterMap fun a =>
    match a with
    | .createSession request => some request
    | _ => none

/-- The `totalSum` of each rendered checkout page, in order. -/
def renderedTotals (actions : List Action) : List JsNumber :=
  actions.filterMap fun a =>
    match a with
    | .renderCheckout locals => some locals.totalSum
    | _ => none

/-- What a line item asks the provider to charge, exactly: `unit_amount` times
`quantity`. -/
def LineItem.charge (item : LineItem) : ℚ :=
  item.price_data.unit_amount.toRat * (item.quantity : ℚ)

/-! ## Numbers: whole numbers below `2 ^ 53` are computed exactly -/

theorem log2Floor_le (fuel : Nat) : ∀ (n k : Nat), n < 2 ^ (k + 1) → log2Floor fuel n ≤ k := by
  induction fuel with
  | zero => intro n k _; simp [log2Floor]
  | succ fuel ih =>
    intro n k h
    simp only [log2Floor]
    split
    · omega
    · rename_i h2
      cases k with
      | zero => simp at h; omega
      | succ k =>
        have : n / 2 < 2 ^ (k + 1) := by
          rw [Nat.div_lt_iff_lt_mul (by norm_num)]
          rw [pow_succ] at h
          exact h
        have := ih (n / 2) k this
        omega

theorem roundHalfEven_intCast (z : Int) : roundHalfEven (z : ℚ) = z := by
  simp [roundHalfEven]

theorem ulpExponent_natCast (n : Nat) (hpos : 0 < n) (h : n < 2 ^ 53) :
    ulpExponent (n : ℚ) ≤ 0 ∧ -1074 ≤ ulpExponent (n : ℚ) := by
  have habs : |(n : ℚ)| = (n : ℚ) := abs_of_nonneg (by positivity)
  have hone : (1 : ℚ) ≤ (n : ℚ) := by exact_mod_cast hpos
  have hexp : binaryExponent (n : ℚ) ≤ 52 := by
    simp only [binaryExponent, if_pos hone, Nat.floor_natCast]
    exact_mod_cast log2Floor_le n n 52 h
  simp only [ulpExponent, habs]
  constructor
  · exact max_le (by omega) (by norm_num)
  · exact le_max_right _ _

theorem roundDouble_natCast (n : Nat) (h : n < 2 ^ 53) :
    roundDouble (n : ℚ) = .finite (n : ℚ) := by
  rcases Nat.eq_zero_or_pos n with h0 | hpos
  · subst h0; simp [roundDouble]
  · obtain ⟨hle, -⟩ := ulpExponent_natCast n hpos h
    obtain ⟨k, hk⟩ := Int.exists_eq_neg_ofNat hle
    have hne : (n : ℚ) ≠ 0 := by positivity
    have hscaled : (n : ℚ) / (2 : ℚ) ^ ulpExponent (n : ℚ) = (((n * 2 ^ k : Nat) : Int) : ℚ) := by
      rw [hk, zpow_neg, zpow_natCast]
      push_cast
      field_simp
    have hback : ((((n * 2 ^ k : Nat) : Int) : ℚ)) * (2 : ℚ) ^ ulpExponent (n : ℚ) = (n : ℚ) := by
      rw [hk, zpow_neg, zpow_natCast]
      push_cast
      field_simp
    have hsmall : ¬ ((2 : ℚ) ^ (1024 : Nat) ≤ |(n : ℚ)|) := by
      rw [abs_of_nonneg (by positivity), not_le]
      have h1 : (n : ℚ) < ((2 ^ 53 : Nat) : ℚ) := by exact_mod_cast h
      have h2 : (((2 : Nat) ^ 53 : Nat) : ℚ) ≤ (2 : ℚ) ^ (1024 : Nat) := by norm_num
      linarith
    simp only [roundDouble, if_neg hne, hscaled, roundHalfEven_intCast, hback, if_neg hsmall]

theorem add_whole (a b : Nat) (h : a + b < 2 ^ 53) :
    JsNumber.add (.finite a) (.finite b) = .finite ((a + b : Nat) : ℚ) := by
  simp only [JsNumber.add]
  rw [← Nat.cast_add, roundDouble_natCast _ h]

theorem mul_whole (a b : Nat) (h : a * b < 2 ^ 53) :
    JsNumber.mul (.finite a) (.finite b) = .finite ((a * b : Nat) : ℚ) := by
  simp only [JsNumber.mul]
  rw [← Nat.cast_mul, roundDouble_natCast _ h]

/-! ## Pagination -/

theorem ceil_div_three_le (total : Nat) (n : Nat) :
    Int.ceil ((total : ℚ) / ((3 : Nat) : ℚ)) ≤ (n : Int) ↔ total ≤ n * 3 := by
  rw [Int.ceil_le, div_le_iff₀ (by norm_num)]
  constructor
  · intro h
    have h2 : ((total : Nat) : ℚ) ≤ ((n * 3 : Nat) : ℚ) := by push_cast; simpa using h
    exact_mod_cast h2
  · intro h
    have h2 : ((total : Nat) : ℚ) ≤ ((n * 3 : Nat) : ℚ) := by exact_mod_cast h
    push_cast at h2
    simpa using h2

theorem ceil_div_three_nonneg (total : Nat) :
    0 ≤ Int.ceil ((total : ℚ) / ((3 : Nat) : ℚ)) := by
  apply Int.ceil_nonneg
  positivity

theorem findSkipLimit_page (db : ProductCollection) (hfind : db.findFault = none)
    (page : Int) (hpage : 1 ≤ page) :
    db.findSkipLimit ((page - 1) * ITEMS_PER_PAGE) ITEMS_PER_PAGE
      = .ok ((db.docs.drop (3 * (page.toNat - 1))).take 3) := by
  have h0 : ¬ ((page - 1) * ((3 : Nat) : Int) < 0) := by
    push_cast; omega
  have h1 : ((page - 1) * ((3 : Nat) : Int)).toNat = 3 * (page.toNat - 1) := by
    push_cast; omega
  simp only [ProductCollection.findSkipLimit, hfind, ITEMS_PER_PAGE, h0, h1, if_false]

theorem flatMap_pages (n : Nat) : ∀ (l : List Product), l.length ≤ n * 3 →
    (List.range n).flatMap (fun k => (l.drop (3 * k)).take 3) = l := by
  induction n with
  | zero =>
    intro l h
    have : l = [] := List.length_eq_zero.mp (by omega)
    simp [this]
  | succ n ih =>
    intro l h
    rw [List.range_succ_eq_map, List.flatMap_cons, List.flatMap_map]
    have hrest : (List.range n).flatMap (fun k => ((l.drop 3).drop (3 * k)).take 3) = l.drop 3 :=
      ih (l.drop 3) (by simp; omega)
    have hfun : (fun k => (l.drop (3 * Nat.succ k)).take 3)
        = (fun k => ((l.drop 3).drop (3 * k)).take 3) := by
      funext k
      rw [List.drop_drop]
      congr 2
      omega
    rw [hfun, hrest]
    simp

theorem getProducts_page (query : JsNum) (db : ProductCollection)
    (hpage : 1 ≤ pageOf query) (hcount : db.countFault = none)
    (hfind : db.findFault = none) :
    getProducts query db = [.renderProducts "shop/product-list"
      { prods := (db.docs.drop (3 * ((pageOf query).toNat - 1))).take 3
        pageTitle := "All Products"
        path := "/products"
        currentPage := pageOf query
        hasNextPage := decide ((ITEMS_PER_PAGE : Int) * pageOf query < db.docs.length)
        hasPreviousPage := decide (pageOf query > 1)
        nextPage := pageOf query + 1
        previousPage := pageOf query - 1
        lastPage := Int.ceil ((db.docs.length : ℚ) / (ITEMS_PER_PAGE : ℚ)) }] := by
  have hslice := findSkipLimit_page db hfind (pageOf query) hpage
  have hc : db.countDocuments = .ok db.docs.length := by
    simp [ProductCollection.countDocuments, hcount]
  simp only [getProducts, hc, hslice, catch500, bind, Except.bind, pure, Except.pure]

theorem getIndex_page (query : JsNum) (db : ProductCollection)
    (hpage : 1 ≤ pageOf query) (hcount : db.countFault = none)
    (hfind : db.findFault = none) :
    getIndex query db = [.renderProducts "shop/index"
      { prods := (db.docs.drop (3 * ((pageOf query).toNat - 1))).take 3
        pageTitle := "Shop"
        path := "/"
        currentPage := pageOf query
        hasNextPage := decide ((ITEMS_PER_PAGE : Int) * pageOf query < db.docs.length)
        hasPreviousPage := decide (pageOf query > 1)
        nextPage := pageOf query + 1
        previousPage := pageOf query - 1
        lastPage := Int.ceil ((db.docs.length : ℚ) / (ITEMS_PER_PAGE : ℚ)) }] := by
  have hslice := findSkipLimit_page db hfind (pageOf query) hpage
  have hc : db.countDocuments = .ok db.docs.length := by
    simp [ProductCollection.countDocuments, hcount]
  simp only [getIndex, hc, hslice, catch500, bind, Except.bind, pure, Except.pure]

/-- C1: for every effective page number at least 1 and every product count,
`getProducts` and `getIndex` render a page whose `hasNextPage` says that
`3 * page` is less than the count, whose `hasPreviousPage` says that the page
exceeds 1, and whose `lastPage` is the least natural `n` with `n * 3` at least the
count; the effective page is 1 for a missing, non-numeric or zero query value
and the query value otherwise. -/
theorem C1_pagination_flags (query : JsNum) (db : ProductCollection)
    (hpage : 1 ≤ pageOf query) (hcount : db.countFault = none)
    (hfind : db.findFault = none) :
    (pageOf .nan = 1 ∧ pageOf (.num 0) = 1 ∧ ∀ v : Int, v ≠ 0 → pageOf (.num v) = v) ∧
    ∃ list index : ProductListLocals,
      getProducts query db = [.renderProducts "shop/product-list" list] ∧
      getIndex query db = [.renderProducts "shop/index" index] ∧
      list.currentPage = pageOf query ∧ index.currentPage = pageOf query ∧
      (list.hasNextPage = true ↔ (ITEMS_PER_PAGE : Int) * pageOf query < db.docs.length) ∧
      (index.hasNextPage = true ↔ (ITEMS_PER_PAGE : Int) * pageOf query < db.docs.length) ∧
      (list.hasPreviousPage = true ↔ 1 < pageOf query) ∧
      (index.hasPreviousPage = true ↔ 1 < pageOf query) ∧
      index.lastPage = list.lastPage ∧
      0 ≤ list.lastPage ∧
      (db.docs.length : Int) ≤ list.lastPage * ITEMS_PER_PAGE ∧
      ∀ n : Nat, db.docs.length ≤ n * ITEMS_PER_PAGE → list.lastPage ≤ n := by
  refine ⟨⟨rfl, rfl, fun v hv => by simp [pageOf, hv]⟩, ?_⟩
  refine ⟨_, _, getProducts_page query db hpage hcount hfind,
    getIndex_page query db hpage hcount hfind, ?_⟩
  · refine ⟨rfl, rfl, by simp, by simp, by simp, by simp, rfl, ?_, ?_, ?_⟩
    · exact ceil_div_three_nonneg _
    · have h := (ceil_div_three_le db.docs.length
        (Int.ceil ((db.docs.length : ℚ) / ((3 : Nat) : ℚ))).toNat).mp
        (by rw [Int.toNat_of_nonneg (ceil_div_three_nonneg _)])
      have h2 := Int.toNat_of_nonneg (ceil_div_three_nonneg db.docs.length)
      have h3 : (db.docs.length : Int)
          ≤ (((Int.ceil ((db.docs.length : ℚ) / ((3 : Nat) : ℚ))).toNat * 3 : Nat) : Int) := by
        exact_mod_cast h
      rw [Nat.cast_mul, h2] at h3
      exact h3
    · intro n hn
      exact (ceil_div_three_le db.docs.length n).mpr hn

/-- Witness of C1: a catalog of seven products, pages 1 and 3. -/
theorem C1_pagination_flags_witness :
    (1 ≤ pageOf (.num 1) ∧ 1 ≤ pageOf (.num 3) ∧
      catalog7.countFault = none ∧ catalog7.findFault = none) ∧
    ∃ first third : ProductListLocals,
      getProducts (.num 1) catalog7 = [.renderProducts "shop/product-list" first] ∧
      getProducts (.num 3) catalog7 = [.renderProducts "shop/product-list" third] ∧
      first.lastPage = 3 ∧ third.lastPage = 3 ∧
      first.hasNextPage = true ∧ first.hasPreviousPage = false ∧
      third.hasNextPage = false ∧ third.hasPreviousPage = true := by
  refine ⟨⟨by decide, by decide, rfl, rfl⟩, ?_⟩
  obtain ⟨-, first, -, hf, -, -, -, hfn, -, hfp, -, -, hf0, hfle, hfleast⟩ :=
    C1_pagination_flags (.num 1) catalog7 (by decide) rfl rfl
  obtain ⟨-, third, -, ht, -, -, -, htn, -, htp, -, -, ht0, htle, htleast⟩ :=
    C1_pagination_flags (.num 3) catalog7 (by decide) rfl rfl
  have hlen : catalog7.docs.length = 7 := rfl
  have hp1 : pageOf (.num 1) = 1 := rfl
  have hp3 : pageOf (.num 3) = 3 := rfl
  rw [hlen, hp1] at hfn
  rw [hp1] at hfp
  rw [hlen, hp3] at htn
  rw [hp3] at htp
  rw [hlen] at hfle hfleast htle htleast
  have hf3 := hfleast 3 (by decide)
  have ht3 := htleast 3 (by decide)
  simp only [ITEMS_PER_PAGE] at hfle htle hfn htn
  push_cast at hfle htle hfn htn hf3 ht3
  refine ⟨first, third, hf, ht, by omega, by omega, ?_, ?_, ?_, ?_⟩
  · exact hfn.mpr (by norm_num)
  · cases h : first.hasPreviousPage
    · rfl
    · exact absurd (hfp.mp h) (by norm_num)
  · cases h : third.hasNextPage
    · rfl
    · exact absurd (htn.mp h) (by norm_num)
  · exact htp.mpr (by norm_num)

/-- C2: with the catalog a list and skip and limit as drop and take, page
`page ≥ 1` of `getProducts` shows exactly the products at the 1-indexed
positions `3 * (page - 1) + 1` to `min (3 * page) total`, in order; a page
beyond `lastPage` is rendered with no product and no error is forwarded; and
the slices of pages `1` to `lastPage`, concatenated, are the whole catalog. -/
theorem C2_page_slices (query : JsNum) (page : Nat) (db : ProductCollection)
    (hquery : pageOf query = (page : Int)) (hpage : 1 ≤ page)
    (hcount : db.countFault = none) (hfind : db.findFault = none) :
    ∃ locals : ProductListLocals,
      getProducts query db = [.renderProducts "shop/product-list" locals] ∧
      locals.prods.length = min (3 * page) db.docs.length - 3 * (page - 1) ∧
      (∀ i : Nat, i < locals.prods.length →
        locals.prods[i]? = db.docs[3 * (page - 1) + i]?) ∧
      (locals.lastPage < (page : Int) → locals.prods = []) ∧
      (List.range locals.lastPage.toNat).flatMap
        (fun k => renderedProds (getProducts (.num ((k : Int) + 1)) db)) = db.docs := by
  have hp1 : 1 ≤ pageOf query := by rw [hquery]; exact_mod_cast hpage
  have hnat : (pageOf query).toNat = page := by rw [hquery]; simp
  refine ⟨_, getProducts_page query db hp1 hcount hfind, ?_, ?_, ?_, ?_⟩
  · simp only [hnat, List.length_take, List.length_drop]
    omega
  · intro i hi
    simp only [hnat, List.length_take, List.length_drop] at hi
    simp only [hnat, List.getElem?_take, List.getElem?_drop]
    rw [if_pos (by omega)]
  · intro hlast
    simp only [hnat]
    have hle := (ceil_div_three_le db.docs.length (page - 1)).mp (by
      simp only [ITEMS_PER_PAGE] at hlast
      have : ((page - 1 : Nat) : Int) = (page : Int) - 1 := by omega
      rw [this]
      omega)
    rw [List.drop_eq_nil_of_le (by omega)]
    simp
  · have hall : ∀ k : Nat, renderedProds (getProducts (.num ((k : Int) + 1)) db)
        = (db.docs.drop (3 * k)).take 3 := by
      intro k
      have hk : pageOf (.num ((k : Int) + 1)) = (k : Int) + 1 := by
        simp only [pageOf]
        rw [if_neg (by omega)]
      rw [getProducts_page (.num ((k : Int) + 1)) db (by rw [hk]; omega) hcount hfind]
      have hsub : ((k : Int) + 1).toNat - 1 = k := by omega
      simp only [renderedProds, hk, hsub]
    simp only [hall]
    apply flatMap_pages
    have h := (ceil_div_three_le db.docs.length
      (Int.ceil ((db.docs.length : ℚ) / ((3 : Nat) : ℚ))).toNat).mp
      (by rw [Int.toNat_of_nonneg (ceil_div_three_nonneg _)])
    exact h

/-- Witness of C2: with seven products, page 3 shows the seventh product only
and page 1 shows the first three. -/
theorem C2_page_slices_witness :
    (pageOf (.num 3) = ((3 : Nat) : Int) ∧ 1 ≤ 3 ∧
      catalog7.countFault = none ∧ catalog7.findFault = none) ∧
    (∃ locals : ProductListLocals,
      getProducts (.num 3) catalog7 = [.renderProducts "shop/product-list" locals] ∧
      locals.prods.length = 1 ∧
      locals.prods[0]? = some (sampleProduct "p7" "P7" 7)) ∧
    renderedProds (getProducts (.num 1) catalog7)
      = [sampleProduct "p1" "P1" 1, sampleProduct "p2" "P2" 2, sampleProduct "p3" "P3" 3] ∧
    renderedProds (getProducts (.num 3) catalog7) = [sampleProduct "p7" "P7" 7] := by
  refine ⟨⟨rfl, by decide, rfl, rfl⟩, ?_, ?_, ?_⟩
  · obtain ⟨locals, hrender, hlen, hget, -, -⟩ :=
      C2_page_slices (.num 3) 3 catalog7 rfl (by decide) rfl rfl
    have hlen1 : locals.prods.length = 1 := by rw [hlen]; rfl
    refine ⟨locals, hrender, hlen1, ?_⟩
    rw [hget 0 (by omega)]
    rfl
  · rw [getProducts_page (.num 1) catalog7 (by decide) rfl rfl]
    rfl
  · rw [getProducts_page (.num 3) catalog7 (by decide) rfl rfl]
    rfl

/-! ## Numbers: sums of whole-number prices -/

theorem jsMul_comm (x y : JsNumber) : x.mul y = y.mul x := by
  cases x <;> cases y <;> simp only [JsNumber.mul]
  rw [mul_comm]

theorem ofNat_whole (n : Nat) (h : n < 2 ^ 53) : JsNumber.ofNat n = .finite (n : ℚ) :=
  roundDouble_natCast n h

theorem whole_sum_nonneg (xs : List (JsNumber × Nat))
    (hwhole : ∀ x ∈ xs, ∃ n : Nat, x.1 = .finite (n : ℚ) ∧ x.2 < 2 ^ 53) :
    0 ≤ (xs.map (fun x => x.1.toRat * (x.2 : ℚ))).sum := by
  apply List.sum_nonneg
  intro y hy
  rw [List.mem_map] at hy
  obtain ⟨x, hx, rfl⟩ := hy
  obtain ⟨n, hn, -⟩ := hwhole x hx
  rw [hn]
  simp only [JsNumber.toRat]
  positivity

theorem foldl_add_whole (xs : List (JsNumber × Nat)) : ∀ a : Nat,
    (∀ x ∈ xs, ∃ n : Nat, x.1 = .finite (n : ℚ) ∧ x.2 < 2 ^ 53) →
    (a : ℚ) + (xs.map (fun x => x.1.toRat * (x.2 : ℚ))).sum < 2 ^ 53 →
    (xs.map (fun x => x.1.mul (.ofNat x.2))).foldl JsNumber.add (.finite (a : ℚ))
      = .finite ((a : ℚ) + (xs.map (fun x => x.1.toRat * (x.2 : ℚ))).sum) := by
  induction xs with
  | nil => intro a _ _; simp
  | cons x xs ih =>
    intro a hwhole hsum
    obtain ⟨n, hn, hq⟩ := hwhole x (List.mem_cons_self _ _)
    have hrest : ∀ y ∈ xs, ∃ n : Nat, y.1 = .finite (n : ℚ) ∧ y.2 < 2 ^ 53 :=
      fun y hy => hwhole y (List.mem_cons_of_mem _ hy)
    have hnonneg := whole_sum_nonneg xs hrest
    have hx : x.1.toRat = (n : ℚ) := by rw [hn]; rfl
    simp only [List.map_cons, List.sum_cons, hx] at hsum ⊢
    rw [hn]
    have hstep : ((a + n * x.2 : Nat) : ℚ) < ((2 ^ 53 : Nat) : ℚ) := by
      push_cast
      linarith
    have hstepN : a + n * x.2 < 2 ^ 53 := by exact_mod_cast hstep
    have hprod : n * x.2 < 2 ^ 53 := by omega
    rw [List.foldl_cons, ofNat_whole x.2 hq, mul_whole n x.2 hprod,
      add_whole a (n * x.2) hstepN]
    rw [ih (a + n * x.2) hrest (by push_cast; linarith)]
    congr 1
    push_cast
    ring

theorem jsSum_whole (xs : List (JsNumber × Nat))
    (hwhole : ∀ x ∈ xs, ∃ n : Nat, x.1 = .finite (n : ℚ) ∧ x.2 < 2 ^ 53)
    (hsum : (xs.map (fun x => x.1.toRat * (x.2 : ℚ))).sum < 2 ^ 53) :
    jsSum (xs.map (fun x => x.1.mul (.ofNat x.2)))
      = .finite (xs.map (fun x => x.1.toRat * (x.2 : ℚ))).sum := by
  have h := foldl_add_whole xs 0 hwhole (by simpa using hsum)
  simpa [jsSum] using h

/-! ## Invoices -/

theorem foldl_invoiceStep (ps : List OrderEntry) : ∀ (total : JsNumber) (acc : List Action),
    ps.foldl invoiceStep (total, acc)
      = ((ps.map (fun p => (JsNumber.ofNat p.qty).mul p.product.price)).foldl JsNumber.add total,
         acc ++ ps.flatMap invoiceLine) := by
  induction ps with
  | nil => intro total acc; simp
  | cons p ps ih =>
    intro total acc
    rw [List.foldl_cons]
    simp only [invoiceStep]
    rw [ih]
    simp [invoiceLine]

theorem getInvoice_accepted (orderId : String) (user : User) (db : OrderCollection)
    (order : Order) (hfound : db.findById orderId = .ok (some order))
    (howner : order.user.userId.toString = user._id.toString) :
    getInvoice orderId user db
      = invoiceHead orderId ++ order.products.flatMap invoiceLine
        ++ invoiceFoot
            (jsSum (order.products.map (fun p => (JsNumber.ofNat p.qty).mul p.product.price))) := by
  simp only [getInvoice, hfound, howner, ne_eq, not_true_eq_false, if_false]
  rw [foldl_invoiceStep]
  simp [invoiceHead, invoiceFoot, jsSum]

theorem printedTotals_lines (ps : List OrderEntry) :
    printedTotals (ps.flatMap invoiceLine) = [] := by
  induction ps with
  | nil => rfl
  | cons p ps ih =>
    simp only [List.flatMap_cons, printedTotals, List.filterMap_append] at ih ⊢
    rw [ih]
    rfl

theorem printedTotals_invoice (orderId : String) (ps : List OrderEntry) (total : JsNumber) :
    printedTotals (invoiceHead orderId ++ ps.flatMap invoiceLine ++ invoiceFoot total)
      = [total] := by
  have h := printedTotals_lines ps
  simp only [printedTotals, List.filterMap_append] at h ⊢
  rw [h]
  rfl

theorem invoice_sum_whole (ps : List OrderEntry)
    (hwhole : ∀ p ∈ ps, ∃ n : Nat, p.product.price = .finite (n : ℚ) ∧ p.qty < 2 ^ 53)
    (hsum : (ps.map (fun p => (p.qty : ℚ) * p.product.price.toRat)).sum < 2 ^ 53) :
    jsSum (ps.map (fun p => (JsNumber.ofNat p.qty).mul p.product.price))
      = .finite (ps.map (fun p => (p.qty : ℚ) * p.product.price.toRat)).sum := by
  have hw : ∀ x ∈ ps.map (fun p => (p.product.price, p.qty)),
      ∃ n : Nat, x.1 = .finite (n : ℚ) ∧ x.2 < 2 ^ 53 := by
    intro x hx
    rw [List.mem_map] at hx
    obtain ⟨p, hp, rfl⟩ := hx
    exact hwhole p hp
  have hexact : ((ps.map (fun p => (p.product.price, p.qty))).map
      (fun x => x.1.toRat * (x.2 : ℚ))).sum
      = (ps.map (fun p => (p.qty : ℚ) * p.product.price.toRat)).sum := by
    rw [List.map_map]
    congr 1
    apply List.map_congr_left
    intro p _
    simp only [Function.comp]
    ring
  have h := jsSum_whole (ps.map (fun p => (p.product.price, p.qty))) hw (by rw [hexact]; exact hsum)
  rw [hexact, List.map_map] at h
  rw [← h]
  congr 1
  apply List.map_congr_left
  intro p _
  simp only [Function.comp]
  exact jsMul_comm _ _

theorem sampleOrder_total :
    jsSum (sampleOrder.products.map (fun p => (JsNumber.ofNat p.qty).mul p.product.price))
      = .finite 25 := by
  decide!

theorem tenth_times_three :
    (JsNumber.finite 0).add ((JsNumber.ofNat 3).mul (.finite tenth))
      = .finite (1351079888211149 / 4503599627370496) := by
  decide!

/-- C3: `getInvoice` produces invoice output (a response header, the file under
`data/invoices`, a write to the PDF document) exactly when the lookup yields an
order whose owner, in string form, equals the requester's id in string form.
When the lookup yields no order the only action is forwarding the error
`No order found.`, when the owner differs the only action is forwarding the
error `Unauthorized.`, and a rejected lookup forwards its error. For an accepted
request the whole output is given: both headers, the file
`data/invoices/<orderId>.pdf` opened and piped to, the response piped to, the
title, one line per entry, the total, the closing text and the end of the
document. -/
theorem C3_invoice_gate (orderId : String) (user : User) (db : OrderCollection) :
    ((∃ a ∈ getInvoice orderId user db, isInvoiceOutput a = true) ↔
      ∃ order : Order, db.findById orderId = .ok (some order) ∧
        order.user.userId.toString = user._id.toString) ∧
    (db.findById orderId = .ok none →
      getInvoice orderId user db = [.next (newError "No order found.")]) ∧
    (∀ order : Order, db.findById orderId = .ok (some order) →
      order.user.userId.toString ≠ user._id.toString →
      getInvoice orderId user db = [.next (newError "Unauthorized.")]) ∧
    (∀ err : JsError, db.findById orderId = .error err →
      getInvoice orderId user db = [.next err]) ∧
    (∀ order : Order, db.findById orderId = .ok (some order) →
      order.user.userId.toString = user._id.toString →
      getInvoice orderId user db =
        [.setHeader "Content-Type" "application/pdf",
         .setHeader "Content-Disposition" ("filename=\"" ++ (orderId ++ ".pdf") ++ "\""),
         .createWriteStream ("data/invoices/" ++ (orderId ++ ".pdf")),
         .pipe (.file ("data/invoices/" ++ (orderId ++ ".pdf"))),
         .pipe .response,
         .text 26 [.str "Invoice"] { underline := true, align := none, width := none },
         .moveDown]
        ++ order.products.flatMap (fun p =>
            [.text 14
                [.str p.product.title, .str " - ", .num (.ofNat p.qty), .str " x $",
                 .num p.product.price] noOptions,
             .moveDown])
        ++ [.text 20
              [.str "Total Price: $",
               .num (jsSum (order.products.map
                  (fun p => (JsNumber.ofNat p.qty).mul p.product.price)))]
              { underline := false, align := some "right", width := none },
            .moveDown,
            .text 10 [.str "Payment is due within 15 days. Thank you for your business."]
              { underline := false, align := some "center", width := some 500 },
            .pdfEnd]) := by
  have hnone : db.findById orderId = .ok none →
      getInvoice orderId user db = [.next (newError "No order found.")] := by
    intro h; simp only [getInvoice, h]
  have hdiff : ∀ order : Order, db.findById orderId = .ok (some order) →
      order.user.userId.toString ≠ user._id.toString →
      getInvoice orderId user db = [.next (newError "Unauthorized.")] := by
    intro order h hne; simp only [getInvoice, h, hne, ne_eq, not_false_eq_true, if_true]
  have herr : ∀ err : JsError, db.findById orderId = .error err →
      getInvoice orderId user db = [.next err] := by
    intro err h; simp only [getInvoice, h]
  refine ⟨⟨?_, ?_⟩, hnone, hdiff, herr, ?_⟩
  · rintro ⟨a, ha, hout⟩
    cases hres : db.findById orderId with
    | error err =>
      rw [herr err hres] at ha
      simp only [List.mem_singleton] at ha
      subst ha
      simp [isInvoiceOutput] at hout
    | ok found =>
      cases found with
      | none =>
        rw [hnone hres] at ha
        simp only [List.mem_singleton] at ha
        subst ha
        simp [isInvoiceOutput] at hout
      | some order =>
        by_cases howner : order.user.userId.toString = user._id.toString
        · exact ⟨order, rfl, howner⟩
        · rw [hdiff order hres howner] at ha
          simp only [List.mem_singleton] at ha
          subst ha
          simp [isInvoiceOutput] at hout
  · rintro ⟨order, hfound, howner⟩
    refine ⟨.setHeader "Content-Type" "application/pdf", ?_, rfl⟩
    rw [getInvoice_accepted orderId user db order hfound howner]
    simp [invoiceHead]
  · intro order hfound howner
    rw [getInvoice_accepted orderId user db order hfound howner]
    rfl

/-- Witness of C3: the owner of `sampleOrder` gets the whole invoice, with the
total 25, another user gets `Unauthorized.` and an unknown id gets
`No order found.`. -/
theorem C3_invoice_gate_witness :
    (∃ a ∈ getInvoice "o1" sampleUser sampleOrders, isInvoiceOutput a = true) ∧
    getInvoice "o1" sampleUser sampleOrders =
      [.setHeader "Content-Type" "application/pdf",
       .setHeader "Content-Disposition" "filename=\"o1.pdf\"",
       .createWriteStream "data/invoices/o1.pdf",
       .pipe (.file "data/invoices/o1.pdf"),
       .pipe .response,
       .text 26 [.str "Invoice"] { underline := true, align := none, width := none },
       .moveDown,
       .text 14 [.str "A", .str " - ", .num (.finite 2), .str " x $", .num (.finite 10)]
          noOptions,
       .moveDown,
       .text 14 [.str "B", .str " - ", .num (.finite 1), .str " x $", .num (.finite 5)]
          noOptions,
       .moveDown,
       .text 20 [.str "Total Price: $", .num (.finite 25)]
          { underline := false, align := some "right", width := none },
       .moveDown,
       .text 10 [.str "Payment is due within 15 days. Thank you for your business."]
          { underline := false, align := some "center", width := some 500 },
       .pdfEnd] ∧
    getInvoice "o1" otherUser sampleOrders = [.next (newError "Unauthorized.")] ∧
    getInvoice "o9" sampleUser sampleOrders = [.next (newError "No order found.")] := by
  refine ⟨?_, ?_, ?_, ?_⟩
  · exact (C3_invoice_gate "o1" sampleUser sampleOrders).1.mpr ⟨sampleOrder, rfl, rfl⟩
  · rw [(C3_invoice_gate "o1" sampleUser sampleOrders).2.2.2.2 sampleOrder rfl rfl,
      sampleOrder_total]
    decide!
  · exact (C3_invoice_gate "o1" otherUser sampleOrders).2.2.1 sampleOrder rfl (by decide)
  · exact (C3_invoice_gate "o9" sampleUser sampleOrders).2.1 rfl

/-- C4: for an order `getInvoice` accepts, the invoice is the head (headers,
sinks, title), then for each entry of `order.products`, in order, one line with
that entry's title, quantity and unit price, then the line `Total Price` with the
sum over the entries of `qty * product.price`, then the closing text. The sum is
the one the loop accumulates with the operators `+` and `*` of doubles, from 0
and in entry order; it is 0 for an order without entries, and it is the exact
sum when every price is a whole number, every quantity is below `2 ^ 53` and the
exact sum is below `2 ^ 53`. -/
theorem C4_invoice_lines (orderId : String) (user : User) (db : OrderCollection)
    (order : Order) (hfound : db.findById orderId = .ok (some order))
    (howner : order.user.userId.toString = user._id.toString) :
    getInvoice orderId user db
      = invoiceHead orderId
        ++ order.products.flatMap (fun p =>
            [.text 14
                [.str p.product.title, .str " - ", .num (.ofNat p.qty), .str " x $",
                 .num p.product.price] noOptions,
             .moveDown])
        ++ [.text 20
              [.str "Total Price: $",
               .num (jsSum (order.products.map
                  (fun p => (JsNumber.ofNat p.qty).mul p.product.price)))]
              { underline := false, align := some "right", width := none },
            .moveDown,
            .text 10 [.str "Payment is due within 15 days. Thank you for your business."]
              { underline := false, align := some "center", width := some 500 },
            .pdfEnd] ∧
    (order.products = [] →
      getInvoice orderId user db = invoiceHead orderId ++ invoiceFoot (.finite 0)) ∧
    ((∀ p ∈ order.products, ∃ n : Nat, p.product.price = .finite (n : ℚ) ∧ p.qty < 2 ^ 53) →
      (order.products.map (fun p => (p.qty : ℚ) * p.product.price.toRat)).sum < 2 ^ 53 →
      printedTotals (getInvoice orderId user db)
        = [.finite (order.products.map (fun p => (p.qty : ℚ) * p.product.price.toRat)).sum]) := by
  have h := getInvoice_accepted orderId user db order hfound howner
  refine ⟨?_, ?_, ?_⟩
  · rw [h]; rfl
  · intro hnil
    rw [h, hnil]
    rfl
  · intro hwhole hsum
    rw [h, printedTotals_invoice, invoice_sum_whole order.products hwhole hsum]

/-- Witness of C4: the order placed by `postOrder` from the cart with two of A
at 10 and one of B at 5 has an invoice whose printed total is 25; and the order
of three of product T, whose price is the double nearest to 0.1, has an invoice
with one line and the printed total 0.30000000000000004, the double
1351079888211149 / 2 ^ 52. -/
theorem C4_invoice_lines_witness :
    ((postOrder { hex := "o1" } cartWorld).2.orders.findById "o1" = .ok (some sampleOrder) ∧
      sampleOrder.user.userId.toString = sampleUser._id.toString) ∧
    printedTotals (getInvoice "o1" sampleUser (postOrder { hex := "o1" } cartWorld).2.orders)
      = [.finite 25] ∧
    (roundDouble (1 / 10) = .finite tenth ∧
      tenthOrders.findById "o3" = .ok (some tenthOrder) ∧
      tenthOrder.user.userId.toString = sampleUser._id.toString) ∧
    getInvoice "o3" sampleUser tenthOrders
      = invoiceHead "o3"
        ++ [.text 14
              [.str "T", .str " - ", .num (.finite 3), .str " x $", .num (.finite tenth)]
              noOptions,
            .moveDown]
        ++ invoiceFoot (.finite (1351079888211149 / 4503599627370496)) := by
  have hfound : (postOrder { hex := "o1" } cartWorld).2.orders.findById "o1"
      = .ok (some sampleOrder) := by rfl
  have howner : sampleOrder.user.userId.toString = sampleUser._id.toString := by decide
  refine ⟨⟨hfound, howner⟩, ?_, ⟨by decide!, rfl, rfl⟩, ?_⟩
  swap
  · rw [(C4_invoice_lines "o3" sampleUser tenthOrders tenthOrder rfl rfl).1]
    have h := tenth_times_three
    have h3 : JsNumber.ofNat 3 = .finite 3 := by decide!
    simp only [jsSum, tenthOrder, productT, sampleProduct, List.map_cons, List.map_nil,
      List.foldl_cons, List.foldl_nil, List.flatMap_cons, List.flatMap_nil, List.append_nil,
      invoiceFoot]
    rw [h, h3]
  have hexact : (sampleOrder.products.map (fun p => (p.qty : ℚ) * p.product.price.toRat)).sum
      = 25 := by
    simp only [sampleOrder, productA, productB, sampleProduct, JsNumber.toRat, List.map_cons,
      List.map_nil, List.sum_cons, List.sum_nil]
    norm_num
  have h := (C4_invoice_lines "o1" sampleUser _ sampleOrder hfound howner).2.2
    (by
      intro p hp
      simp only [sampleOrder, List.mem_cons, List.mem_singleton, List.not_mem_nil,
        or_false] at hp
      rcases hp with rfl | rfl
      · exact ⟨10, by simp [productA, sampleProduct], by norm_num⟩
      · exact ⟨5, by simp [productB, sampleProduct], by norm_num⟩)
    (by rw [hexact]; norm_num)
  rw [h, hexact]

/-! ## Checkout -/

theorem checkoutTotal_resolved (cart : List (Product × Nat)) : ∀ total : JsNumber,
    checkoutTotal total (cart.map resolved)
      = .ok ((cart.map (fun c => c.1.price.mul (.ofNat c.2))).foldl JsNumber.add total) := by
  induction cart with
  | nil => intro total; simp [checkoutTotal]
  | cons c cart ih =>
    intro total
    simp only [List.map_cons, checkoutTotal, resolved, List.foldl_cons]
    have h := ih (total.add (c.1.price.mul (.ofNat c.2)))
    simp only [resolved] at h
    rw [h]

/-- The line item `getCheckout` builds for a resolved cart entry. -/
theorem lineItems_resolved (cart : List (Product × Nat)) :
    lineItems (cart.map resolved)
      = .ok (cart.map fun c =>
          { price_data :=
              { currency := "usd"
                unit_amount := c.1.price.mul (.finite 100)
                product_data :=
                  { name := c.1.title
                    description :=
                      if c.1.description = "" then none else some c.1.description } }
            quantity := c.2 }) := by
  induction cart with
  | nil => simp [lineItems]
  | cons c cart ih =>
    simp only [List.map_cons, lineItems]
    rw [ih]
    simp [lineItem, resolved]

theorem getCheckout_resolved (protocol host : String)
    (stripe : SessionRequest → Except JsError String) (w : World)
    (cart : List (Product × Nat))
    (hpop : populate w.products w.user = .ok (cart.map resolved)) :
    getCheckout protocol host stripe w =
      let request : SessionRequest :=
        { payment_method_types := ["card"]
          line_items := cart.map fun c =>
            { price_data :=
                { currency := "usd"
                  unit_amount := c.1.price.mul (.finite 100)
                  product_data :=
                    { name := c.1.title
                      description :=
                        if c.1.description = "" then none else some c.1.description } }
              quantity := c.2 }
          mode := "payment"
          success_url := protocol ++ "://" ++ host ++ "/checkout/success"
          cancel_url := protocol ++ "://" ++ host ++ "/checkout/cancel" }
      [.createSession request,
       match stripe request with
       | .error err => .next (wrap500 err)
       | .ok sessionId =>
         .renderCheckout
          { path := "/checkout"
            pageTitle := "Checkout"
            products := cart.map resolved
            totalSum := jsSum (cart.map (fun c => c.1.price.mul (.ofNat c.2)))
            sessionId := sessionId }] := by
  simp only [getCheckout, hpop, checkoutTotal_resolved, lineItems_resolved, jsSum]
  split <;> rename_i h <;> simp only [h]

theorem sessionRequests_getCheckout (protocol host : String)
    (stripe : SessionRequest → Except JsError String) (w : World)
    (cart : List (Product × Nat))
    (hpop : populate w.products w.user = .ok (cart.map resolved)) :
    sessionRequests (getCheckout protocol host stripe w) =
      [{ payment_method_types := ["card"]
         line_items := cart.map fun c =>
           { price_data :=
               { currency := "usd"
                 unit_amount := c.1.price.mul (.finite 100)
                 product_data :=
                   { name := c.1.title
                     description :=
                       if c.1.description = "" then none else some c.1.description } }
             quantity := c.2 }
         mode := "payment"
         success_url := protocol ++ "://" ++ host ++ "/checkout/success"
         cancel_url := protocol ++ "://" ++ host ++ "/checkout/cancel" }] := by
  rw [getCheckout_resolved protocol host stripe w cart hpop]
  simp only [sessionRequests]
  generalize stripe _ = answer
  cases answer <;> rfl

theorem renderedTotals_getCheckout (protocol host : String)
    (stripe : SessionRequest → Except JsError String) (w : World)
    (cart : List (Product × Nat))
    (hpop : populate w.products w.user = .ok (cart.map resolved))
    (hstripe : ∀ request : SessionRequest, ∃ id : String, stripe request = .ok id) :
    renderedTotals (getCheckout protocol host stripe w)
      = [jsSum (cart.map (fun c => c.1.price.mul (.ofNat c.2)))] := by
  rw [getCheckout_resolved protocol host stripe w cart hpop]
  simp only [renderedTotals]
  obtain ⟨id, hid⟩ := hstripe
    { payment_method_types := ["card"]
      line_items := cart.map fun c =>
        { price_data :=
            { currency := "usd"
              unit_amount := c.1.price.mul (.finite 100)
              product_data :=
                { name := c.1.title
                  description :=
                    if c.1.description = "" then none else some c.1.description } }
          quantity := c.2 }
      mode := "payment"
      success_url := protocol ++ "://" ++ host ++ "/checkout/success"
      cancel_url := protocol ++ "://" ++ host ++ "/checkout/cancel" }
  rw [hid]
  rfl

theorem populate_resolved (w : World) (cart : List (Product × Nat))
    (hpop : populate w.products w.user = .ok (cart.map resolved)) :
    cart.map (fun c => c.2) = w.user.cart.items.map (fun i => i.qty) ∧
    cart.map (fun c => some c.1)
      = w.user.cart.items.map (fun i => w.products.docs.find? (fun p => p._id = i.productId)) := by
  simp only [populate] at hpop
  cases hfault : w.products.findFault with
  | some e => simp [hfault] at hpop
  | none =>
    simp only [hfault, Except.ok.injEq] at hpop
    constructor
    · have h := congrArg (List.map (fun p : PopulatedItem => p.qty)) hpop
      simp only [List.map_map] at h
      rw [show (fun c : Product × Nat => c.2) = ((fun p : PopulatedItem => p.qty) ∘ resolved)
        from rfl, ← h]
      rfl
    · have h := congrArg (List.map (fun p : PopulatedItem => p.productId)) hpop
      simp only [List.map_map] at h
      rw [show (fun c : Product × Nat => some c.1)
          = ((fun p : PopulatedItem => p.productId) ∘ resolved) from rfl, ← h]
      rfl

theorem eighth_times_hundred :
    (JsNumber.finite (1 / 8)).mul (.finite 100) = .finite (25 / 2) := by
  decide!

theorem nineteen99_times_hundred :
    (JsNumber.finite nineteen99).mul (.finite 100)
      = .finite (8791694975696895 / 4398046511104) := by
  decide!

theorem not_whole_of_half (k : Int) : ∀ n : Int, ((2 * k + 1 : Int) : ℚ) / 2 ≠ (n : ℚ) := by
  intro n h
  have h2 : ((2 * k + 1 : Int) : ℚ) = ((2 * n : Int) : ℚ) := by
    push_cast at h ⊢
    linarith
  have h3 : (2 * k + 1 : Int) = 2 * n := by exact_mod_cast h2
  omega

/-- Counterexample to C5: for a cart with one product of price 0.125, a double,
the `unit_amount` sent to the provider is 12.5, which is neither the price times
100 rounded to a whole number nor an integer; and for a cart with one product of
price 19.99, that is the double nearest to it, the `unit_amount` sent is
1998.9999999999998, the double 8791694975696895 / 2 ^ 42, not an integer
either. -/
theorem C5_counterexample :
    roundDouble (1 / 8) = .finite (1 / 8) ∧
    (sessionRequests (getCheckout "https" "shop.test" stripeAccepts eighthWorld)).map
        (fun request => request.line_items.map fun item => item.price_data.unit_amount)
      = [[.finite (25 / 2)]] ∧
    (25 / 2 : ℚ) ≠ ((round ((1 / 8 : ℚ) * 100) : Int) : ℚ) ∧
    (∀ n : Int, (25 / 2 : ℚ) ≠ (n : ℚ)) ∧
    roundDouble (1999 / 100) = .finite nineteen99 ∧
    (sessionRequests (getCheckout "https" "shop.test" stripeAccepts centsWorld)).map
        (fun request => request.line_items.map fun item => item.price_data.unit_amount)
      = [[.finite (8791694975696895 / 4398046511104)]] ∧
    (∀ n : Int, (8791694975696895 / 4398046511104 : ℚ) ≠ (n : ℚ)) := by
  have hpop : populate eighthWorld.products eighthWorld.user
      = .ok ([(productC, 1)].map resolved) := by rfl
  have hpopD : populate centsWorld.products centsWorld.user
      = .ok ([(productD, 1)].map resolved) := by rfl
  have hhalf : ∀ n : Int, (25 / 2 : ℚ) ≠ (n : ℚ) := by
    intro n
    have h := not_whole_of_half 12 n
    norm_num at h ⊢
    exact h
  have hcents : ∀ n : Int, (8791694975696895 / 4398046511104 : ℚ) ≠ (n : ℚ) := by
    intro n h
    have h2 : ((8791694975696895 : Int) : ℚ) = ((4398046511104 * n : Int) : ℚ) := by
      push_cast
      rw [← h]
      norm_num
    have h3 : (8791694975696895 : Int) = 4398046511104 * n := by exact_mod_cast h2
    omega
  refine ⟨by decide!, ?_, hhalf _, hhalf, by decide!, ?_, hcents⟩
  · rw [sessionRequests_getCheckout "https" "shop.test" stripeAccepts eighthWorld _ hpop]
    have h := eighth_times_hundred
    simp only [List.map_cons, List.map_nil, productC, sampleProduct]
    rw [h]
  · rw [sessionRequests_getCheckout "https" "shop.test" stripeAccepts centsWorld _ hpopD]
    have h := nineteen99_times_hundred
    simp only [List.map_cons, List.map_nil, productD, sampleProduct]
    rw [h]

/-- C5, amended: for a cart whose entries all resolve to products, `getCheckout`
sends the payment provider one request, with one line item per cart entry, in
cart order, with currency `usd`, quantity the entry's `qty`, name the product's
title and `unit_amount` the double product of the product's price and 100, with
no rounding to a whole number; when every price is a whole number with 100 times
it below `2 ^ 53`, every `unit_amount` sent is that whole number, 100 times the
price. -/
theorem C5_line_items (protocol host : String)
    (stripe : SessionRequest → Except JsError String) (w : World)
    (cart : List (Product × Nat))
    (hpop : populate w.products w.user = .ok (cart.map resolved)) :
    (sessionRequests (getCheckout protocol host stripe w)).map (fun request => request.line_items)
      = [cart.map fun c =>
          { price_data :=
              { currency := "usd"
                unit_amount := c.1.price.mul (.finite 100)
                product_data :=
                  { name := c.1.title
                    description :=
                      if c.1.description = "" then none else some c.1.description } }
            quantity := c.2 }] ∧
    (∀ request ∈ sessionRequests (getCheckout protocol host stripe w),
      request.line_items.length = w.user.cart.items.length ∧
      request.line_items.map (fun item => item.quantity) = w.user.cart.items.map (fun i => i.qty)) ∧
    ((∀ c ∈ cart, ∃ n : Nat, c.1.price = .finite (n : ℚ) ∧ n * 100 < 2 ^ 53) →
      (sessionRequests (getCheckout protocol host stripe w)).map
          (fun request => request.line_items.map fun item => item.price_data.unit_amount)
        = [cart.map fun c => .finite (c.1.price.toRat * 100)] ∧
      ∀ request ∈ sessionRequests (getCheckout protocol host stripe w),
        ∀ item ∈ request.line_items,
          ∃ m : Nat, item.price_data.unit_amount = .finite (m : ℚ)) := by
  have hitems := (populate_resolved w cart hpop).1
  have hlen : cart.length = w.user.cart.items.length := by
    have h := congrArg List.length hitems
    simpa using h
  have hreqs := sessionRequests_getCheckout protocol host stripe w cart hpop
  refine ⟨?_, ?_, ?_⟩
  · rw [hreqs]
    rfl
  · intro request hreq
    rw [hreqs, List.mem_singleton] at hreq
    subst hreq
    refine ⟨by simp [hlen], ?_⟩
    simp only [List.map_map]
    rw [← hitems]
    rfl
  · intro hwhole
    have hunit : ∀ c ∈ cart, c.1.price.mul (.finite 100) = .finite (c.1.price.toRat * 100) := by
      intro c hc
      obtain ⟨n, hn, hbound⟩ := hwhole c hc
      rw [hn]
      have h := mul_whole n 100 hbound
      simp only [JsNumber.toRat]
      rw [show (JsNumber.finite (100 : ℚ)) = .finite ((100 : Nat) : ℚ) from by norm_num, h]
      push_cast
      rfl
    rw [hreqs]
    constructor
    · simp only [List.map_cons, List.map_nil, List.map_map]
      congr 1
      apply List.map_congr_left
      intro c hc
      exact hunit c hc
    · intro request hreq item hitem
      rw [List.mem_singleton] at hreq
      subst hreq
      simp only [List.mem_map] at hitem
      obtain ⟨c, hc, rfl⟩ := hitem
      obtain ⟨n, hn, hbound⟩ := hwhole c hc
      refine ⟨n * 100, ?_⟩
      simp only []
      rw [hunit c hc, hn]
      simp only [JsNumber.toRat]
      push_cast
      rfl

/-- Witness of C5: the cart with two of A at 10 and one of B at 5. -/
theorem C5_line_items_witness :
    populate cartWorld.products cartWorld.user = .ok ([(productA, 2), (productB, 1)].map resolved) ∧
    (sessionRequests (getCheckout "https" "shop.test" stripeAccepts cartWorld)).map
        (fun request => request.line_items.map fun item => item.price_data.unit_amount)
      = [[.finite 1000, .finite 500]] := by
  have hpop : populate cartWorld.products cartWorld.user
      = .ok ([(productA, 2), (productB, 1)].map resolved) := by rfl
  refine ⟨hpop, ?_⟩
  rw [((C5_line_items "https" "shop.test" stripeAccepts cartWorld _ hpop).2.2 (by
    intro c hc
    simp only [List.mem_cons, List.mem_singleton, List.not_mem_nil, or_false] at hc
    rcases hc with rfl | rfl
    · exact ⟨10, by simp [productA, sampleProduct], by norm_num⟩
    · exact ⟨5, by simp [productB, sampleProduct], by norm_num⟩)).1]
  simp only [List.map_cons, List.map_nil, productA, productB, sampleProduct, JsNumber.toRat]
  norm_num

theorem three_tenths :
    (JsNumber.finite 0).add ((JsNumber.finite tenth).mul (.ofNat 3))
      = .finite (1351079888211149 / 4503599627370496) := by
  decide!

theorem tenth_times_hundred :
    (JsNumber.finite tenth).mul (.finite 100) = .finite 10 := by
  decide!

theorem hundred_times_three_tenths :
    (JsNumber.finite 100).mul (.finite (1351079888211149 / 4503599627370496))
      = .finite (8444249301319681 / 281474976710656) := by
  decide!

/-- Counterexample to C6: for a cart with three of product T, whose price is the
double nearest to 0.1, the rendered `totalSum` is 0.30000000000000004, the double
1351079888211149 / 2 ^ 52, and the submitted line item has `unit_amount` 10 and
quantity 3, so the provider is asked to charge 30, while 100 times `totalSum` is
not 30, neither exactly nor as the double product, which is
30.000000000000004. -/
theorem C6_counterexample :
    roundDouble (1 / 10) = .finite tenth ∧
    roundDouble tenth = .finite tenth ∧
    renderedTotals (getCheckout "https" "shop.test" stripeAccepts tenthWorld)
      = [.finite (1351079888211149 / 4503599627370496)] ∧
    (sessionRequests (getCheckout "https" "shop.test" stripeAccepts tenthWorld)).map
        (fun request => (request.line_items.map LineItem.charge).sum) = [30] ∧
    (100 * (1351079888211149 / 4503599627370496) : ℚ) ≠ 30 ∧
    (JsNumber.finite 100).mul (.finite (1351079888211149 / 4503599627370496))
      ≠ .finite 30 := by
  have hpop : populate tenthWorld.products tenthWorld.user
      = .ok ([(productT, 3)].map resolved) := by rfl
  have hstripe : ∀ request : SessionRequest, ∃ id : String, stripeAccepts request = .ok id :=
    fun _ => ⟨"cs_1", rfl⟩
  refine ⟨by decide!, by decide!, ?_, ?_, ?_, ?_⟩
  · rw [renderedTotals_getCheckout "https" "shop.test" stripeAccepts tenthWorld _ hpop hstripe]
    have h := three_tenths
    simp only [jsSum, productT, sampleProduct, List.map_cons, List.map_nil, List.foldl_cons,
      List.foldl_nil]
    rw [h]
  · rw [sessionRequests_getCheckout "https" "shop.test" stripeAccepts tenthWorld _ hpop]
    have h := tenth_times_hundred
    simp only [List.map_cons, List.map_nil, productT, sampleProduct, LineItem.charge,
      List.sum_cons, List.sum_nil]
    rw [h]
    simp only [JsNumber.toRat]
    norm_num
  · norm_num
  · rw [hundred_times_three_tenths]
    intro h
    simp only [JsNumber.finite.injEq] at h
    norm_num at h

theorem sum_charges_whole (cart : List (Product × Nat))
    (hunit : ∀ c ∈ cart, c.1.price.mul (.finite 100) = .finite (c.1.price.toRat * 100)) :
    ((cart.map fun c =>
        ({ price_data :=
            { currency := "usd"
              unit_amount := c.1.price.mul (.finite 100)
              product_data :=
                { name := c.1.title
                  description :=
                    if c.1.description = "" then none else some c.1.description } }
           quantity := c.2 } : LineItem)).map LineItem.charge).sum
      = 100 * (cart.map (fun c => c.1.price.toRat * (c.2 : ℚ))).sum := by
  induction cart with
  | nil => simp
  | cons c cart ih =>
    simp only [List.map_cons, List.sum_cons]
    rw [ih (fun d hd => hunit d (List.mem_cons_of_mem _ hd))]
    simp only [LineItem.charge]
    rw [hunit c (List.mem_cons_self _ _)]
    simp only [JsNumber.toRat]
    ring

/-- C6, amended: for a cart whose entries all resolve to products and a provider
that answers with a session, the `totalSum` that `getCheckout` renders is the
sum over the cart entries of `price * qty`, as the loop accumulates it with the
operators `+` and `*` of doubles, from 0 and in cart order; it is 0 for an empty
cart. When every price is a whole
number, every quantity is at least 1 and below `2 ^ 53`, and 100 times the exact
sum of `price * qty` is below `2 ^ 53`, `totalSum` is that exact sum and 100
times it is the sum over the submitted line items of `unit_amount * quantity`. -/
theorem C6_checkout_total (protocol host : String)
    (stripe : SessionRequest → Except JsError String) (w : World)
    (cart : List (Product × Nat))
    (hpop : populate w.products w.user = .ok (cart.map resolved))
    (hstripe : ∀ request : SessionRequest, ∃ id : String, stripe request = .ok id) :
    renderedTotals (getCheckout protocol host stripe w)
      = [jsSum (cart.map (fun c => c.1.price.mul (.ofNat c.2)))] ∧
    (w.user.cart.items = [] →
      renderedTotals (getCheckout protocol host stripe w) = [.finite 0]) ∧
    ((∀ c ∈ cart, ∃ n : Nat, c.1.price = .finite (n : ℚ) ∧ 1 ≤ c.2 ∧ c.2 < 2 ^ 53) →
      100 * (cart.map (fun c => c.1.price.toRat * (c.2 : ℚ))).sum < 2 ^ 53 →
      renderedTotals (getCheckout protocol host stripe w)
        = [.finite (cart.map (fun c => c.1.price.toRat * (c.2 : ℚ))).sum] ∧
      (sessionRequests (getCheckout protocol host stripe w)).map
          (fun request => (request.line_items.map LineItem.charge).sum)
        = [100 * (cart.map (fun c => c.1.price.toRat * (c.2 : ℚ))).sum]) := by
  have htotal := renderedTotals_getCheckout protocol host stripe w cart hpop hstripe
  refine ⟨htotal, ?_, ?_⟩
  · intro hempty
    have h := congrArg List.length (populate_resolved w cart hpop).1
    rw [hempty] at h
    simp only [List.length_map, List.length_nil] at h
    have hnil : cart = [] := List.length_eq_zero.mp h
    rw [htotal, hnil]
    rfl
  · intro hwhole hsum
    have hw : ∀ x ∈ cart.map (fun c => (c.1.price, c.2)),
        ∃ n : Nat, x.1 = .finite (n : ℚ) ∧ x.2 < 2 ^ 53 := by
      intro x hx
      rw [List.mem_map] at hx
      obtain ⟨c, hc, rfl⟩ := hx
      obtain ⟨n, hn, -, hq⟩ := hwhole c hc
      exact ⟨n, hn, hq⟩
    have hmap : (cart.map (fun c => (c.1.price, c.2))).map (fun x => x.1.toRat * (x.2 : ℚ))
        = cart.map (fun c => c.1.price.toRat * (c.2 : ℚ)) := by
      rw [List.map_map]
      rfl
    have hnonneg : 0 ≤ (cart.map (fun c => c.1.price.toRat * (c.2 : ℚ))).sum := by
      have h := whole_sum_nonneg (cart.map (fun c => (c.1.price, c.2))) hw
      rwa [hmap] at h
    have hexact := jsSum_whole (cart.map (fun c => (c.1.price, c.2))) hw
      (by rw [hmap]; linarith)
    rw [hmap, List.map_map] at hexact
    have hunit : ∀ c ∈ cart,
        c.1.price.mul (.finite 100) = .finite (c.1.price.toRat * 100) := by
      intro c hc
      obtain ⟨n, hn, hone, -⟩ := hwhole c hc
      have hterm : c.1.price.toRat * (c.2 : ℚ)
          ≤ (cart.map (fun c => c.1.price.toRat * (c.2 : ℚ))).sum := by
        apply List.single_le_sum
        · intro y hy
          rw [List.mem_map] at hy
          obtain ⟨d, hd, rfl⟩ := hy
          obtain ⟨m, hm, -, -⟩ := hwhole d hd
          rw [hm]
          simp only [JsNumber.toRat]
          positivity
        · exact List.mem_map_of_mem _ hc
      have hx : c.1.price.toRat = (n : ℚ) := by rw [hn]; rfl
      rw [hx] at hterm
      rw [hx, hn]
      have hq : (1 : ℚ) ≤ (c.2 : ℚ) := by exact_mod_cast hone
      have hn0 : (0 : ℚ) ≤ (n : ℚ) := by positivity
      have hbound : ((n * 100 : Nat) : ℚ) < ((2 ^ 53 : Nat) : ℚ) := by
        push_cast
        nlinarith [mul_nonneg hn0 (sub_nonneg.mpr hq)]
      have hboundN : n * 100 < 2 ^ 53 := by exact_mod_cast hbound
      have h := mul_whole n 100 hboundN
      rw [show (JsNumber.finite (100 : ℚ)) = .finite ((100 : Nat) : ℚ) from by norm_num, h]
      push_cast
      rfl
    constructor
    · rw [htotal]
      exact congrArg (fun t => [t]) hexact
    · rw [sessionRequests_getCheckout protocol host stripe w cart hpop]
      simp only [List.map_cons, List.map_nil]
      rw [sum_charges_whole cart hunit]

/-- Witness of C6: the cart with two of A at 10 and one of B at 5 renders the
total 25 and asks the provider for 2500 minor units. -/
theorem C6_checkout_total_witness :
    (populate cartWorld.products cartWorld.user
        = .ok ([(productA, 2), (productB, 1)].map resolved) ∧
      ∀ request : SessionRequest, ∃ id : String, stripeAccepts request = .ok id) ∧
    renderedTotals (getCheckout "https" "shop.test" stripeAccepts cartWorld) = [.finite 25] ∧
    (sessionRequests (getCheckout "https" "shop.test" stripeAccepts cartWorld)).map
        (fun request => (request.line_items.map LineItem.charge).sum) = [2500] := by
  have hpop : populate cartWorld.products cartWorld.user
      = .ok ([(productA, 2), (productB, 1)].map resolved) := by rfl
  have hstripe : ∀ request : SessionRequest, ∃ id : String, stripeAccepts request = .ok id :=
    fun _ => ⟨"cs_1", rfl⟩
  have hexact : ([(productA, 2), (productB, 1)].map
      (fun c : Product × Nat => c.1.price.toRat * (c.2 : ℚ))).sum = 25 := by
    simp only [productA, productB, sampleProduct, JsNumber.toRat, List.map_cons, List.map_nil,
      List.sum_cons, List.sum_nil]
    norm_num
  obtain ⟨htotal, hcharge⟩ :=
    (C6_checkout_total "https" "shop.test" stripeAccepts cartWorld _ hpop hstripe).2.2
      (by
        intro c hc
        simp only [List.mem_cons, List.mem_singleton, List.not_mem_nil, or_false] at hc
        rcases hc with rfl | rfl
        · exact ⟨10, by simp [productA, sampleProduct], by norm_num, by norm_num⟩
        · exact ⟨5, by simp [productB, sampleProduct], by norm_num, by norm_num⟩)
      (by rw [hexact]; norm_num)
  refine ⟨⟨hpop, hstripe⟩, ?_, ?_⟩
  · rw [htotal, hexact]
  · rw [hcharge, hexact]
    norm_num

/-! ## Orders -/

theorem orderEntries_resolved (cart : List (Product × Nat)) :
    orderEntries (cart.map resolved)
      = .ok (cart.map fun c => { qty := c.2, product := c.1 }) := by
  induction cart with
  | nil => simp [orderEntries]
  | cons c cart ih =>
    simp only [List.map_cons, orderEntries]
    rw [ih]
    simp [orderEntry, resolved]

/-- C7: for a user whose cart entries all resolve to products, `postOrder` builds
and passes to `save` an order whose `products` has one entry per cart item, in
cart order, holding that item's `qty` and a product equal, field by field, to the
document the item's reference resolves to, and whose `user` part holds the
requester's name, email and id; when the save succeeds that order is appended
to the stored orders; and `getCheckoutSuccess` yields the same actions and the
same final state as `postOrder`. -/
theorem C7_order_snapshot (newId : ObjectId) (w : World) (cart : List (Product × Nat))
    (hpop : populate w.products w.user = .ok (cart.map resolved)) :
    (postOrder newId w).1.head? = some (.saveOrder
        { _id := newId
          user := { name := w.user.name, email := w.user.email, userId := w.user._id }
          products := cart.map fun c => { qty := c.2, product := c.1 } }) ∧
    (w.orders.saveFault = none →
      (postOrder newId w).2.orders.docs = w.orders.docs ++
        [{ _id := newId
           user := { name := w.user.name, email := w.user.email, userId := w.user._id }
           products := cart.map fun c => { qty := c.2, product := c.1 } }]) ∧
    (cart.map fun c => ({ qty := c.2, product := c.1 } : OrderEntry)).length
      = w.user.cart.items.length ∧
    (cart.map fun c => ({ qty := c.2, product := c.1 } : OrderEntry)).map (fun e => e.qty)
      = w.user.cart.items.map (fun i => i.qty) ∧
    (cart.map fun c => ({ qty := c.2, product := c.1 } : OrderEntry)).map
        (fun e => some e.product)
      = w.user.cart.items.map
          (fun i => w.products.docs.find? (fun p => p._id = i.productId)) ∧
    getCheckoutSuccess newId w = postOrder newId w := by
  obtain ⟨hqty, hdocs⟩ := populate_resolved w cart hpop
  refine ⟨?_, ?_, ?_, ?_, ?_, rfl⟩
  · simp only [postOrder, hpop, orderEntries_resolved, OrderCollection.save, clearCart]
    cases w.orders.saveFault <;> cases w.userSaveFault <;> rfl
  · intro hsave
    simp only [postOrder, hpop, orderEntries_resolved, OrderCollection.save, clearCart, hsave]
    cases w.userSaveFault <;> rfl
  · have h := congrArg List.length hqty
    simpa using h
  · rw [List.map_map, ← hqty]
    rfl
  · rw [List.map_map, ← hdocs]
    rfl

/-- Witness of C7: the cart with two of A and one of B. -/
theorem C7_order_snapshot_witness :
    populate cartWorld.products cartWorld.user
      = .ok ([(productA, 2), (productB, 1)].map resolved) ∧
    (postOrder { hex := "o1" } cartWorld).1.head? = some (.saveOrder sampleOrder) ∧
    (postOrder { hex := "o1" } cartWorld).2.orders.docs = [sampleOrder] ∧
    getCheckoutSuccess { hex := "o1" } cartWorld = postOrder { hex := "o1" } cartWorld := by
  have hpop : populate cartWorld.products cartWorld.user
      = .ok ([(productA, 2), (productB, 1)].map resolved) := by rfl
  obtain ⟨hsave, hdocs, -, -, -, hsame⟩ := C7_order_snapshot { hex := "o1" } cartWorld _ hpop
  exact ⟨hpop, hsave, hdocs rfl, hsame⟩

/-- C8: in `postOrder`, and in `getCheckoutSuccess`, which behaves the same,
`clearCart` is invoked only after `save` has succeeded and the redirect to
`/orders` is issued only after `clearCart` has succeeded. If populating fails,
a cart entry does not resolve, or the save fails, then `clearCart` is not
invoked, nothing is redirected, the state is unchanged and one error with
`httpStatusCode` 500 is forwarded. If the save succeeds and `clearCart` fails,
the order is stored, the user and the cart are unchanged and the error is
forwarded in place of the redirect. -/
theorem C8_order_then_clear (newId : ObjectId) (w : World) :
    getCheckoutSuccess newId w = postOrder newId w ∧
    (∀ err : JsError, populate w.products w.user = .error err →
      postOrder newId w = ([.next (wrap500 err)], w)) ∧
    (∀ (items : List PopulatedItem) (err : JsError),
      populate w.products w.user = .ok items → orderEntries items = .error err →
      postOrder newId w = ([.next (wrap500 err)], w)) ∧
    (∀ (items : List PopulatedItem) (products : List OrderEntry) (err : JsError),
      populate w.products w.user = .ok items → orderEntries items = .ok products →
      w.orders.saveFault = some err →
      postOrder newId w =
        ([.saveOrder
            { _id := newId
              user := { name := w.user.name, email := w.user.email, userId := w.user._id }
              products := products },
          .next (wrap500 err)], w)) ∧
    (∀ (items : List PopulatedItem) (products : List OrderEntry) (err : JsError),
      populate w.products w.user = .ok items → orderEntries items = .ok products →
      w.orders.saveFault = none → w.userSaveFault = some err →
      postOrder newId w =
        ([.saveOrder
            { _id := newId
              user := { name := w.user.name, email := w.user.email, userId := w.user._id }
              products := products },
          .clearCart,
          .next (wrap500 err)],
         { w with orders := { w.orders with docs := w.orders.docs ++
            [{ _id := newId
               user := { name := w.user.name, email := w.user.email, userId := w.user._id }
               products := products }] } })) ∧
    (∀ (items : List PopulatedItem) (products : List OrderEntry),
      populate w.products w.user = .ok items → orderEntries items = .ok products →
      w.orders.saveFault = none → w.userSaveFault = none →
      postOrder newId w =
        ([.saveOrder
            { _id := newId
              user := { name := w.user.name, email := w.user.email, userId := w.user._id }
              products := products },
          .clearCart,
          .redirect "/orders"],
         { w with
            orders := { w.orders with docs := w.orders.docs ++
              [{ _id := newId
                 user := { name := w.user.name, email := w.user.email, userId := w.user._id }
                 products := products }] }
            user := { w.user with cart := { items := [] } } })) ∧
    (∀ err : JsError, (wrap500 err).httpStatusCode = some 500) ∧
    (Action.clearCart ∈ (postOrder newId w).1 →
      w.orders.saveFault = none ∧
      ∃ order : Order, (postOrder newId w).1.take 2 = [.saveOrder order, .clearCart] ∧
        (postOrder newId w).2.orders.docs = w.orders.docs ++ [order]) ∧
    (Action.redirect "/orders" ∈ (postOrder newId w).1 →
      w.userSaveFault = none ∧
      (∃ order : Order,
        (postOrder newId w).1 = [.saveOrder order, .clearCart, .redirect "/orders"]) ∧
      (postOrder newId w).2.user.cart.items = []) := by
  have hA : ∀ err : JsError, populate w.products w.user = .error err →
      postOrder newId w = ([.next (wrap500 err)], w) := by
    intro err h
    simp only [postOrder, h]
  have hB : ∀ (items : List PopulatedItem) (err : JsError),
      populate w.products w.user = .ok items → orderEntries items = .error err →
      postOrder newId w = ([.next (wrap500 err)], w) := by
    intro items err h1 h2
    simp only [postOrder, h1, h2]
  refine ⟨rfl, hA, hB, ?_, ?_, ?_, fun _ => rfl, ?_, ?_⟩
  · intro items products err h1 h2 h3
    simp only [postOrder, h1, h2, OrderCollection.save, h3]
  · intro items products err h1 h2 h3 h4
    simp only [postOrder, h1, h2, OrderCollection.save, h3, clearCart, h4]
  · intro items products h1 h2 h3 h4
    simp only [postOrder, h1, h2, OrderCollection.save, h3, clearCart, h4]
  · intro hmem
    cases h1 : populate w.products w.user with
    | error e => rw [hA e h1] at hmem; simp at hmem
    | ok items =>
      cases h2 : orderEntries items with
      | error e => rw [hB items e h1 h2] at hmem; simp at hmem
      | ok products =>
        cases h3 : w.orders.saveFault with
        | some e =>
          simp only [postOrder, h1, h2, OrderCollection.save, h3] at hmem
          simp at hmem
        | none =>
          cases h4 : w.userSaveFault with
          | some e =>
            simp only [postOrder, h1, h2, OrderCollection.save, h3, clearCart, h4]
            exact ⟨trivial, _, rfl, rfl⟩
          | none =>
            simp only [postOrder, h1, h2, OrderCollection.save, h3, clearCart, h4]
            exact ⟨trivial, _, rfl, rfl⟩
  · intro hmem
    cases h1 : populate w.products w.user with
    | error e => rw [hA e h1] at hmem; simp at hmem
    | ok items =>
      cases h2 : orderEntries items with
      | error e => rw [hB items e h1 h2] at hmem; simp at hmem
      | ok products =>
        cases h3 : w.orders.saveFault with
        | some e =>
          simp only [postOrder, h1, h2, OrderCollection.save, h3] at hmem
          simp at hmem
        | none =>
          cases h4 : w.userSaveFault with
          | some e =>
            simp only [postOrder, h1, h2, OrderCollection.save, h3, clearCart, h4] at hmem
            simp at hmem
          | none =>
            simp only [postOrder, h1, h2, OrderCollection.save, h3, clearCart, h4]
            exact ⟨trivial, ⟨_, rfl⟩, trivial⟩

/-- Witness of C8: when the order is saved and clearing the cart fails, the
order is stored, the user keeps the cart and the error is forwarded. -/
theorem C8_order_then_clear_witness :
    postOrder { hex := "o1" } stuckCartWorld =
      ([.saveOrder sampleOrder, .clearCart, .next (wrap500 writeError)],
       { stuckCartWorld with
          orders := { stuckCartWorld.orders with docs := [sampleOrder] } }) ∧
    (postOrder { hex := "o1" } stuckCartWorld).2.user.cart = sampleUser.cart := by
  have h := (C8_order_then_clear { hex := "o1" } stuckCartWorld).2.2.2.2.1
    ([(productA, 2), (productB, 1)].map resolved)
    [{ qty := 2, product := productA }, { qty := 1, product := productB }]
    writeError rfl rfl rfl rfl
  refine ⟨?_, ?_⟩
  · rw [h]
    rfl
  · rw [h]
    rfl

/-! ## Product detail -/

/-- C9, the code at a failing input: for an id that no product of `catalog7` has,
the lookup yields `null`, `getProduct` renders nothing and forwards the wrapped
`TypeError` of reading `title` of `null`, with `httpStatusCode` 500; this is the
very list of actions it performs when the lookup itself rejects with that
error. -/
theorem C9_getProduct_missing :
    catalog7.findById { hex := "zz" } = .ok none ∧
    getProduct { hex := "zz" } anonymousSession catalog7 =
      [.next
        { name := "Error"
          message := "TypeError: Cannot read properties of null (reading 'title')"
          httpStatusCode := some 500 }] ∧
    getProduct { hex := "zz" } anonymousSession
        { catalog7 with findFault := some (nullPropertyError "title") }
      = getProduct { hex := "zz" } anonymousSession catalog7 := by
  refine ⟨rfl, ?_, ?_⟩
  · decide
  · decide

/-! ## Login -/

/-- C10: when the user lookup and the password comparison complete, `postLogin`
stores the user in the session, sets `isLoggedIn` and redirects to `/` exactly
when there is no validation error, a user with the submitted email exists and
the comparison with that user's stored hash yields true; in every other case the
session is unchanged and the only action is rendering the login form with
status 422, the submitted email and password as `oldInput` and a non-empty
`validationErrors`. -/
theorem C10_login (email password : String) (errors : List ValidationError)
    (users : UserCollection) (compare : String → String → Except JsError Bool)
    (session : Session) (found : Option User)
    (hfind : users.findOne email = .ok found)
    (hcompare : ∀ user : User, found = some user →
      ∃ doMatch : Bool, compare password user.password = .ok doMatch) :
    (∀ user : User, errors = [] → found = some user →
      compare password user.password = .ok true →
      postLogin email password errors users compare session
        = ([.sessionSave, .redirect "/"], { user := some user, isLoggedIn := some true })) ∧
    (Action.redirect "/" ∈ (postLogin email password errors users compare session).1 ↔
      errors = [] ∧ ∃ user : User, found = some user ∧
        compare password user.password = .ok true) ∧
    (¬ (errors = [] ∧ ∃ user : User, found = some user ∧
        compare password user.password = .ok true) →
      (postLogin email password errors users compare session).2 = session ∧
      ∃ locals : LoginLocals,
        (postLogin email password errors users compare session).1 = [.renderLogin 422 locals] ∧
        locals.oldInput = { email := email, password := password } ∧
        locals.validationErrors ≠ []) := by
  cases errors with
  | cons first rest =>
    refine ⟨fun _ h => by simp at h, ?_, ?_⟩
    · simp [postLogin]
    · intro _
      exact ⟨rfl, _, rfl, rfl, by simp⟩
  | nil =>
    cases found with
    | none =>
      refine ⟨fun _ _ h => by simp at h, ?_, ?_⟩
      · simp [postLogin, hfind]
      · intro _
        have hrun : postLogin email password [] users compare session =
            ([.renderLogin 422
                { path := "/login"
                  pageTitle := "Login"
                  errorMessage := some "E-mail not found."
                  oldInput := { email := email, password := password }
                  validationErrors := [{ param := "email", msg := none }] }], session) := by
          simp only [postLogin, hfind]
        rw [hrun]
        exact ⟨rfl, _, rfl, rfl, by simp⟩
    | some user =>
      obtain ⟨doMatch, hmatch⟩ := hcompare user rfl
      cases doMatch with
      | false =>
        refine ⟨fun u _ hu h => ?_, ?_, ?_⟩
        · simp only [Option.some.injEq] at hu
          subst hu
          rw [hmatch] at h
          simp at h
        · simp [postLogin, hfind, hmatch]
        · intro _
          have hrun : postLogin email password [] users compare session =
              ([.renderLogin 422
                  { path := "/login"
                    pageTitle := "Login"
                    errorMessage := some "Password is incorrect."
                    oldInput := { email := email, password := password }
                    validationErrors := [{ param := "password", msg := none }] }], session) := by
            simp only [postLogin, hfind, hmatch]
            rfl
          rw [hrun]
          exact ⟨rfl, _, rfl, rfl, by simp⟩
      | true =>
        refine ⟨fun u _ hu _ => ?_, ?_, ?_⟩
        · simp only [Option.some.injEq] at hu
          subst hu
          simp only [postLogin, hfind, hmatch, if_true]
        · simp [postLogin, hfind, hmatch]
        · intro hnot
          exact absurd ⟨rfl, user, rfl, hmatch⟩ hnot

/-- Witness of C10: `sampleUser` logs in with the right password and is turned
away with a wrong one. -/
theorem C10_login_witness :
    (sampleUsers.findOne "ann@example.com" = .ok (some sampleUser) ∧
      ∀ user : User, some sampleUser = some user →
        ∃ doMatch : Bool, sampleCompare "secret" user.password = .ok doMatch) ∧
    postLogin "ann@example.com" "secret" [] sampleUsers sampleCompare anonymousSession
      = ([.sessionSave, .redirect "/"], { user := some sampleUser, isLoggedIn := some true }) ∧
    (postLogin "ann@example.com" "guess" [] sampleUsers sampleCompare anonymousSession).2
      = anonymousSession := by
  have hfind : sampleUsers.findOne "ann@example.com" = .ok (some sampleUser) := by rfl
  have hcompare : ∀ password : String, ∀ user : User, some sampleUser = some user →
      ∃ doMatch : Bool, sampleCompare password user.password = .ok doMatch :=
    fun _ _ _ => ⟨_, rfl⟩
  refine ⟨⟨hfind, hcompare "secret"⟩, ?_, ?_⟩
  · exact (C10_login "ann@example.com" "secret" [] sampleUsers sampleCompare anonymousSession
      (some sampleUser) hfind (hcompare "secret")).1 sampleUser rfl rfl (by rfl)
  · refine ((C10_login "ann@example.com" "guess" [] sampleUsers sampleCompare anonymousSession
      (some sampleUser) hfind (hcompare "guess")).2.2 ?_).1
    rintro ⟨-, user, huser, hmatch⟩
    simp only [Option.some.injEq] at huser
    subst huser
    have hfalse : sampleCompare "guess" sampleUser.password = .ok false := by rfl
    rw [hfalse] at hmatch
    simp at hmatch

end NodeShop
